import Mathlib

/-!
Shallow embedding of the STIMPL interpreter (`src/stimpl/runtime.py`).

The interpreter is a tree-walking evaluator `evaluate(expression, state)`
returning a `(value, type, state)` triple, over an immutable linked
environment (`State` / `EmptyState`).  Host (Python) values are modelled
by the tagged union `Value`; the separate semantic type tags of
`stimpl.types` by `Ty`; the three error classes of `stimpl.errors` by
`Err`.  Python floats are modelled as rationals.  The `print` side
effect writes to stdout only and does not influence results, so it is
not modelled.  Host-level arithmetic on representation-mismatched
operands (reachable only from states whose stored values disagree with
their stored type tags, which the interpreter never constructs) is
modelled by the `crash` outcome.  Since the source's `while` loop may
diverge, evaluation takes a fuel parameter; `fuelOut` reports exhausted
fuel and is never conflated with the interpreter's own error classes.
-/

namespace Stimpl

/-- Semantic type tags: the classes `Unit`, `Integer`, `FloatingPoint`,
`String`, `Boolean` of `stimpl.types`, compared structurally. -/
inductive Ty where
  | unit
  | integer
  | floatingPoint
  | string
  | boolean
deriving DecidableEq, Repr

/-- Host (Python) values carried by evaluation: `None`, `int`, `float`
(modelled as `Rat`), `str`, `bool`. -/
inductive Value where
  | vNone
  | vInt (n : Int)
  | vFloat (q : Rat)
  | vStr (s : String)
  | vBool (b : Bool)
deriving DecidableEq, Repr

/-- The three error classes of `stimpl.errors` raised by `evaluate`.
Messages are not modelled, only the class. -/
inductive Err where
  | interpSyntaxError
  | interpTypeError
  | interpMathError
deriving DecidableEq, Repr

/-- The environment chain: `EmptyState` is the terminal; a `State` frame
holds one binding (`variable_name`, `value`, `variable_type`) plus
`next_state`. -/
inductive State where
  | empty
  | frame (variable_name : String) (value : Value) (variable_type : Ty)
      (next_state : State)
deriving DecidableEq, Repr

/-- `State.set_value`: returns a new frame for the binding whose
`next_state` is the receiver (the receiver is not modified). -/
def State.set_value (s : State) (variable_name : String) (variable_value : Value)
    (variable_type : Ty) : State :=
  State.frame variable_name variable_value variable_type s

/-- `State.get_value` / `EmptyState.get_value`: walk the chain from the
newest frame; the first frame whose name matches yields its
`(value, type)` pair; the empty chain yields `None`. -/
def State.get_value : State → String → Option (Value × Ty)
  | State.empty, _ => Option.none
  | State.frame n v t next, x =>
      if n = x then Option.some (v, t) else next.get_value x

/-- The AST node kinds of `stimpl.expression` that `evaluate` matches on.
`Assign` holds a `Variable` node; only its `variable_name` field is read,
so the constructor carries the name directly. -/
inductive Expr where
  | ren
  | intLiteral (literal : Int)
  | floatingPointLiteral (literal : Rat)
  | stringLiteral (literal : String)
  | booleanLiteral (literal : Bool)
  | print (to_print : Expr)
  | sequence (exprs : List Expr)
  | program (exprs : List Expr)
  | variable (variable_name : String)
  | assign (variable_name : String) (value : Expr)
  | add (left right : Expr)
  | subtract (left right : Expr)
  | multiply (left right : Expr)
  | divide (left right : Expr)
  | and (left right : Expr)
  | or (left right : Expr)
  | not (expr : Expr)
  | ifE (condition : Expr) (true_branch false_branch : Expr)
  | lt (left right : Expr)
  | lte (left right : Expr)
  | gt (left right : Expr)
  | gte (left right : Expr)
  | eq (left right : Expr)
  | ne (left right : Expr)
  | whileE (condition : Expr) (body : Expr)

/-- Python truthiness of a host value, used by `if result:` and
`while result:` in the source. -/
def truthy : Value → Bool
  | Value.vNone => false
  | Value.vInt n => decide (n ≠ 0)
  | Value.vFloat q => decide (q ≠ 0)
  | Value.vStr s => decide (s ≠ "")
  | Value.vBool b => b

/-- Numeric reading of a host value for Python `==` (bools compare as
0/1, ints and floats compare across representations). -/
def toNum : Value → Option Rat
  | Value.vInt n => Option.some (n : Rat)
  | Value.vFloat q => Option.some q
  | Value.vBool b => Option.some (if b then 1 else 0)
  | _ => Option.none

/-- Python `==` on host values (total, never raises). -/
def pyEq (x y : Value) : Bool :=
  match toNum x, toNum y with
  | Option.some a, Option.some b => decide (a = b)
  | _, _ =>
    match x, y with
    | Value.vStr a, Value.vStr b => decide (a = b)
    | Value.vNone, Value.vNone => true
    | _, _ => false

/-- Python `+` on the value shapes the interpreter can reach under
matching well-formed tags; `none` models a host-level `TypeError`. -/
def pyAdd : Value → Value → Option Value
  | Value.vInt a, Value.vInt b => Option.some (Value.vInt (a + b))
  | Value.vFloat a, Value.vFloat b => Option.some (Value.vFloat (a + b))
  | Value.vStr a, Value.vStr b => Option.some (Value.vStr (a ++ b))
  | _, _ => Option.none

/-- Python `-` on reachable value shapes. -/
def pySub : Value → Value → Option Value
  | Value.vInt a, Value.vInt b => Option.some (Value.vInt (a - b))
  | Value.vFloat a, Value.vFloat b => Option.some (Value.vFloat (a - b))
  | _, _ => Option.none

/-- Python `*` on reachable value shapes. -/
def pyMul : Value → Value → Option Value
  | Value.vInt a, Value.vInt b => Option.some (Value.vInt (a * b))
  | Value.vFloat a, Value.vFloat b => Option.some (Value.vFloat (a * b))
  | _, _ => Option.none

/-- Python `//` on two ints: floor division (`Int.fdiv`). -/
def pyFloorDiv : Value → Value → Option Value
  | Value.vInt a, Value.vInt b => Option.some (Value.vInt (Int.fdiv a b))
  | _, _ => Option.none

/-- Python `/` on two floats: true division. -/
def pyTrueDiv : Value → Value → Option Value
  | Value.vFloat a, Value.vFloat b => Option.some (Value.vFloat (a / b))
  | _, _ => Option.none

/-- Python `and`: returns the left value if it is falsy, else the right. -/
def pyAnd (x y : Value) : Value :=
  if truthy x then y else x

/-- Python `or`: returns the left value if it is truthy, else the right. -/
def pyOr (x y : Value) : Value :=
  if truthy x then x else y

/-- Python `<` on reachable value shapes (bools order as 0/1). -/
def pyLt : Value → Value → Option Bool
  | Value.vInt a, Value.vInt b => Option.some (decide (a < b))
  | Value.vFloat a, Value.vFloat b => Option.some (decide (a < b))
  | Value.vStr a, Value.vStr b => Option.some (decide (a < b))
  | Value.vBool a, Value.vBool b =>
      Option.some (decide ((if a then (1 : Int) else 0) < (if b then 1 else 0)))
  | _, _ => Option.none

/-- Python `<=` on reachable value shapes. -/
def pyLe : Value → Value → Option Bool
  | Value.vInt a, Value.vInt b => Option.some (decide (a ≤ b))
  | Value.vFloat a, Value.vFloat b => Option.some (decide (a ≤ b))
  | Value.vStr a, Value.vStr b => Option.some (decide (a < b) || decide (a = b))
  | Value.vBool a, Value.vBool b =>
      Option.some (decide ((if a then (1 : Int) else 0) ≤ (if b then 1 else 0)))
  | _, _ => Option.none

/-- Python `>` on reachable value shapes. -/
def pyGt (x y : Value) : Option Bool := pyLt y x

/-- Python `>=` on reachable value shapes. -/
def pyGe (x y : Value) : Option Bool := pyLe y x

/-- The outcome of one evaluation: `(value, type, state)` on success, a
raised interpreter error, exhausted fuel, or an unmodelled host-level
failure. -/
inductive Outcome where
  | ok (v : Value) (t : Ty) (s : State)
  | err (e : Err)
  | fuelOut
  | crash
deriving DecidableEq, Repr

/-- A pending piece of work for the fuel-indexed interpreter: either
evaluate an expression, or continue the `while` loop of the source's
`While` case with the last condition value `v`. -/
inductive Job where
  | run (e : Expr) (s : State)
  | loop (condition body : Expr) (v : Value) (s : State)

/-- Fuel-indexed interpreter.  `evalFuel fuel (Job.run e s)` is the
source's `evaluate(e, s)`; `Job.loop` is the `while result:` loop inside
the `While` case (entered with the current condition value).  Every
recursive call of the source costs one unit of fuel; the loop's exit
test costs none (it is not a recursive call). -/
def evalFuel : Nat → Job → Outcome
  | fuel, Job.loop condition body v s =>
    if truthy v then
      match fuel with
      | 0 => Outcome.fuelOut
      | Nat.succ n =>
        match evalFuel n (Job.run body s) with
        | Outcome.ok _ _ s2 =>
          match evalFuel n (Job.run condition s2) with
          | Outcome.ok v2 t2 s3 =>
            match t2 with
            | Ty.boolean => evalFuel n (Job.loop condition body v2 s3)
            | _ => Outcome.err Err.interpTypeError
          | r => r
        | r => r
    else
      Outcome.ok v Ty.boolean s
  | 0, Job.run _ _ => Outcome.fuelOut
  | Nat.succ n, Job.run e state =>
    match e with
    | Expr.ren => Outcome.ok Value.vNone Ty.unit state
    | Expr.intLiteral l => Outcome.ok (Value.vInt l) Ty.integer state
    | Expr.floatingPointLiteral l => Outcome.ok (Value.vFloat l) Ty.floatingPoint state
    | Expr.stringLiteral l => Outcome.ok (Value.vStr l) Ty.string state
    | Expr.booleanLiteral l => Outcome.ok (Value.vBool l) Ty.boolean state
    | Expr.print to_print =>
      match evalFuel n (Job.run to_print state) with
      | Outcome.ok v t s1 => Outcome.ok v t s1
      | r => r
    | Expr.sequence exprs =>
      match exprs with
      | [] => evalFuel n (Job.run Expr.ren state)
      | e0 :: rest =>
        match evalFuel n (Job.run e0 state) with
        | Outcome.ok v t s1 =>
          match rest with
          | [] => Outcome.ok v t s1
          | _ => evalFuel n (Job.run (Expr.sequence rest) s1)
        | r => r
    | Expr.program exprs =>
      match exprs with
      | [] => evalFuel n (Job.run Expr.ren state)
      | e0 :: rest =>
        match evalFuel n (Job.run e0 state) with
        | Outcome.ok v t s1 =>
          match rest with
          | [] => Outcome.ok v t s1
          | _ => evalFuel n (Job.run (Expr.sequence rest) s1)
        | r => r
    | Expr.variable x =>
      match state.get_value x with
      | Option.none => Outcome.err Err.interpSyntaxError
      | Option.some (v, t) => Outcome.ok v t state
    | Expr.assign x value =>
      match evalFuel n (Job.run value state) with
      | Outcome.ok v t s1 =>
        match s1.get_value x with
        | Option.some (_, vt) =>
          if t ≠ vt then Outcome.err Err.interpTypeError
          else Outcome.ok v t (s1.set_value x v t)
        | Option.none => Outcome.ok v t (s1.set_value x v t)
      | r => r
    | Expr.add left right =>
      match evalFuel n (Job.run left state) with
      | Outcome.ok lv lt s1 =>
        match evalFuel n (Job.run right s1) with
        | Outcome.ok rv rt s2 =>
          if lt ≠ rt then Outcome.err Err.interpTypeError
          else
            match lt with
            | Ty.integer | Ty.string | Ty.floatingPoint =>
              match pyAdd lv rv with
              | Option.some res => Outcome.ok res lt s2
              | Option.none => Outcome.crash
            | _ => Outcome.err Err.interpTypeError
        | r => r
      | r => r
    | Expr.subtract left right =>
      match evalFuel n (Job.run left state) with
      | Outcome.ok lv lt s1 =>
        match evalFuel n (Job.run right s1) with
        | Outcome.ok rv rt s2 =>
          if lt ≠ rt then Outcome.err Err.interpTypeError
          else
            match lt with
            | Ty.integer | Ty.floatingPoint =>
              match pySub lv rv with
              | Option.some res => Outcome.ok res lt s2
              | Option.none => Outcome.crash
            | _ => Outcome.err Err.interpTypeError
        | r => r
      | r => r
    | Expr.multiply left right =>
      match evalFuel n (Job.run left state) with
      | Outcome.ok lv lt s1 =>
        match evalFuel n (Job.run right s1) with
        | Outcome.ok rv rt s2 =>
          if lt ≠ rt then Outcome.err Err.interpTypeError
          else
            match lt with
            | Ty.integer | Ty.floatingPoint =>
              match pyMul lv rv with
              | Option.some res => Outcome.ok res lt s2
              | Option.none => Outcome.crash
            | _ => Outcome.err Err.interpTypeError
        | r => r
      | r => r
    | Expr.divide left right =>
      match evalFuel n (Job.run left state) with
      | Outcome.ok lv lt s1 =>
        match evalFuel n (Job.run right s1) with
        | Outcome.ok rv rt s2 =>
          if lt ≠ rt then Outcome.err Err.interpTypeError
          else if pyEq rv (Value.vInt 0) then Outcome.err Err.interpMathError
          else
            match lt with
            | Ty.integer =>
              match pyFloorDiv lv rv with
              | Option.some res => Outcome.ok res lt s2
              | Option.none => Outcome.crash
            | Ty.floatingPoint =>
              match pyTrueDiv lv rv with
              | Option.some res => Outcome.ok res lt s2
              | Option.none => Outcome.crash
            | _ => Outcome.err Err.interpTypeError
        | r => r
      | r => r
    | Expr.and left right =>
      match evalFuel n (Job.run left state) with
      | Outcome.ok lv lt s1 =>
        match evalFuel n (Job.run right s1) with
        | Outcome.ok rv rt s2 =>
          if lt ≠ rt then Outcome.err Err.interpTypeError
          else
            match lt with
            | Ty.boolean => Outcome.ok (pyAnd lv rv) lt s2
            | _ => Outcome.err Err.interpTypeError
        | r => r
      | r => r
    | Expr.or left right =>
      match evalFuel n (Job.run left state) with
      | Outcome.ok lv lt s1 =>
        match evalFuel n (Job.run right s1) with
        | Outcome.ok rv rt s2 =>
          if lt ≠ rt then Outcome.err Err.interpTypeError
          else
            match lt with
            | Ty.boolean => Outcome.ok (pyOr lv rv) lt s2
            | _ => Outcome.err Err.interpTypeError
        | r => r
      | r => r
    | Expr.not expr =>
      match evalFuel n (Job.run expr state) with
      | Outcome.ok v t s1 =>
        match t with
        | Ty.boolean => Outcome.ok (Value.vBool (! truthy v)) t s1
        | _ => Outcome.err Err.interpTypeError
      | r => r
    | Expr.ifE condition true_branch false_branch =>
      match evalFuel n (Job.run condition state) with
      | Outcome.ok v t s1 =>
        match t with
        | Ty.boolean =>
          if truthy v then evalFuel n (Job.run true_branch s1)
          else evalFuel n (Job.run false_branch s1)
        | _ => Outcome.err Err.interpTypeError
      | r => r
    | Expr.lt left right =>
      match evalFuel n (Job.run left state) with
      | Outcome.ok lv lt s1 =>
        match evalFuel n (Job.run right s1) with
        | Outcome.ok rv rt s2 =>
          if lt ≠ rt then Outcome.err Err.interpTypeError
          else
            match lt with
            | Ty.integer | Ty.boolean | Ty.string | Ty.floatingPoint =>
              match pyLt lv rv with
              | Option.some b => Outcome.ok (Value.vBool b) Ty.boolean s2
              | Option.none => Outcome.crash
            | Ty.unit => Outcome.ok (Value.vBool false) Ty.boolean s2
        | r => r
      | r => r
    | Expr.lte left right =>
      match evalFuel n (Job.run left state) with
      | Outcome.ok lv lt s1 =>
        match evalFuel n (Job.run right s1) with
        | Outcome.ok rv rt s2 =>
          if lt ≠ rt then Outcome.err Err.interpTypeError
          else
            match lt with
            | Ty.integer | Ty.boolean | Ty.string | Ty.floatingPoint =>
              match pyLe lv rv with
              | Option.some b => Outcome.ok (Value.vBool b) Ty.boolean s2
              | Option.none => Outcome.crash
            | Ty.unit => Outcome.ok (Value.vBool true) Ty.boolean s2
        | r => r
      | r => r
    | Expr.gt left right =>
      match evalFuel n (Job.run left state) with
      | Outcome.ok lv lt s1 =>
        match evalFuel n (Job.run right s1) with
        | Outcome.ok rv rt s2 =>
          if lt ≠ rt then Outcome.err Err.interpTypeError
          else
            match lt with
            | Ty.integer | Ty.boolean | Ty.string | Ty.floatingPoint =>
              match pyGt lv rv with
              | Option.some b => Outcome.ok (Value.vBool b) Ty.boolean s2
              | Option.none => Outcome.crash
            | Ty.unit => Outcome.ok (Value.vBool false) Ty.boolean s2
        | r => r
      | r => r
    | Expr.gte left right =>
      match evalFuel n (Job.run left state) with
      | Outcome.ok lv lt s1 =>
        match evalFuel n (Job.run right s1) with
        | Outcome.ok rv rt s2 =>
          if lt ≠ rt then Outcome.err Err.interpTypeError
          else
            match lt with
            | Ty.integer | Ty.boolean | Ty.string | Ty.floatingPoint =>
              match pyGe lv rv with
              | Option.some b => Outcome.ok (Value.vBool b) Ty.boolean s2
              | Option.none => Outcome.crash
            | Ty.unit => Outcome.ok (Value.vBool true) Ty.boolean s2
        | r => r
      | r => r
    | Expr.eq left right =>
      match evalFuel n (Job.run left state) with
      | Outcome.ok lv lt s1 =>
        match evalFuel n (Job.run right s1) with
        | Outcome.ok rv rt s2 =>
          if lt ≠ rt then Outcome.err Err.interpTypeError
          else
            match lt with
            | Ty.integer | Ty.boolean | Ty.string | Ty.floatingPoint =>
              Outcome.ok (Value.vBool (pyEq lv rv)) Ty.boolean s2
            | Ty.unit => Outcome.ok (Value.vBool true) Ty.boolean s2
        | r => r
      | r => r
    | Expr.ne left right =>
      match evalFuel n (Job.run left state) with
      | Outcome.ok lv lt s1 =>
        match evalFuel n (Job.run right s1) with
        | Outcome.ok rv rt s2 =>
          if lt ≠ rt then Outcome.err Err.interpTypeError
          else
            match lt with
            | Ty.integer | Ty.boolean | Ty.string | Ty.floatingPoint =>
              Outcome.ok (Value.vBool (! pyEq lv rv)) Ty.boolean s2
            | Ty.unit => Outcome.ok (Value.vBool false) Ty.boolean s2
        | r => r
      | r => r
    | Expr.whileE condition body =>
      match evalFuel n (Job.run condition state) with
      | Outcome.ok v t s1 =>
        match t with
        | Ty.boolean => evalFuel n (Job.loop condition body v s1)
        | _ => Outcome.err Err.interpTypeError
      | r => r

/-- The source's `evaluate(expression, state)` at the given fuel. -/
def evaluate (fuel : Nat) (expression : Expr) (state : State) : Outcome :=
  evalFuel fuel (Job.run expression state)

/-- The `while result:` loop of the source's `While` case, entered with
the current condition value `v`. -/
def whileLoop (fuel : Nat) (condition body : Expr) (v : Value) (s : State) : Outcome :=
  evalFuel fuel (Job.loop condition body v s)

/-- A host value is well tagged when its representation agrees with the
semantic type tag it is paired with (the interpreter only ever builds
such pairs). -/
def wt : Value → Ty → Bool
  | Value.vNone, Ty.unit => true
  | Value.vInt _, Ty.integer => true
  | Value.vFloat _, Ty.floatingPoint => true
  | Value.vStr _, Ty.string => true
  | Value.vBool _, Ty.boolean => true
  | _, _ => false

/-- A state is well tagged when every binding in the chain is. -/
def wts : State → Bool
  | State.empty => true
  | State.frame _ v t next => wt v t && wts next

/-- The shared skeleton of every binary-operator case of `evaluate`:
evaluate the left operand, thread its state into the right operand,
propagate failures, and hand both results to the operator's own
kernel `k`. -/
def binResult (k : Value → Ty → Value → Ty → State → Outcome)
    (n : Nat) (l r : Expr) (s : State) : Outcome :=
  match evalFuel n (Job.run l s) with
  | Outcome.ok lv lt s1 =>
    match evalFuel n (Job.run r s1) with
    | Outcome.ok rv rt s2 => k lv lt rv rt s2
    | r2 => r2
  | r1 => r1

/-- Kernel of the `Add` case of `evaluate`. -/
def addK (lv : Value) (lt : Ty) (rv : Value) (rt : Ty) (s2 : State) : Outcome :=
  if lt ≠ rt then Outcome.err Err.interpTypeError
  else
    match lt with
    | Ty.integer | Ty.string | Ty.floatingPoint =>
      match pyAdd lv rv with
      | Option.some res => Outcome.ok res lt s2
      | Option.none => Outcome.crash
    | _ => Outcome.err Err.interpTypeError

/-- Kernel of the `Subtract` case of `evaluate`. -/
def subK (lv : Value) (lt : Ty) (rv : Value) (rt : Ty) (s2 : State) : Outcome :=
  if lt ≠ rt then Outcome.err Err.interpTypeError
  else
    match lt with
    | Ty.integer | Ty.floatingPoint =>
      match pySub lv rv with
      | Option.some res => Outcome.ok res lt s2
      | Option.none => Outcome.crash
    | _ => Outcome.err Err.interpTypeError

/-- Kernel of the `Multiply` case of `evaluate`. -/
def mulK (lv : Value) (lt : Ty) (rv : Value) (rt : Ty) (s2 : State) : Outcome :=
  if lt ≠ rt then Outcome.err Err.interpTypeError
  else
    match lt with
    | Ty.integer | Ty.floatingPoint =>
      match pyMul lv rv with
      | Option.some res => Outcome.ok res lt s2
      | Option.none => Outcome.crash
    | _ => Outcome.err Err.interpTypeError

/-- Kernel of the `Divide` case of `evaluate`. -/
def divK (lv : Value) (lt : Ty) (rv : Value) (rt : Ty) (s2 : State) : Outcome :=
  if lt ≠ rt then Outcome.err Err.interpTypeError
  else if pyEq rv (Value.vInt 0) then Outcome.err Err.interpMathError
  else
    match lt with
    | Ty.integer =>
      match pyFloorDiv lv rv with
      | Option.some res => Outcome.ok res lt s2
      | Option.none => Outcome.crash
    | Ty.floatingPoint =>
      match pyTrueDiv lv rv with
      | Option.some res => Outcome.ok res lt s2
      | Option.none => Outcome.crash
    | _ => Outcome.err Err.interpTypeError

/-- Kernel of the `And` case of `evaluate`. -/
def andK (lv : Value) (lt : Ty) (rv : Value) (rt : Ty) (s2 : State) : Outcome :=
  if lt ≠ rt then Outcome.err Err.interpTypeError
  else
    match lt with
    | Ty.boolean => Outcome.ok (pyAnd lv rv) lt s2
    | _ => Outcome.err Err.interpTypeError

/-- Kernel of the `Or` case of `evaluate`. -/
def orK (lv : Value) (lt : Ty) (rv : Value) (rt : Ty) (s2 : State) : Outcome :=
  if lt ≠ rt then Outcome.err Err.interpTypeError
  else
    match lt with
    | Ty.boolean => Outcome.ok (pyOr lv rv) lt s2
    | _ => Outcome.err Err.interpTypeError

/-- Kernel of the `Lt` case of `evaluate`. -/
def ltK (lv : Value) (lt : Ty) (rv : Value) (rt : Ty) (s2 : State) : Outcome :=
  if lt ≠ rt then Outcome.err Err.interpTypeError
  else
    match lt with
    | Ty.integer | Ty.boolean | Ty.string | Ty.floatingPoint =>
      match pyLt lv rv with
      | Option.some b => Outcome.ok (Value.vBool b) Ty.boolean s2
      | Option.none => Outcome.crash
    | Ty.unit => Outcome.ok (Value.vBool false) Ty.boolean s2

/-- Kernel of the `Lte` case of `evaluate`. -/
def lteK (lv : Value) (lt : Ty) (rv : Value) (rt : Ty) (s2 : State) : Outcome :=
  if lt ≠ rt then Outcome.err Err.interpTypeError
  else
    match lt with
    | Ty.integer | Ty.boolean | Ty.string | Ty.floatingPoint =>
      match pyLe lv rv with
      | Option.some b => Outcome.ok (Value.vBool b) Ty.boolean s2
      | Option.none => Outcome.crash
    | Ty.unit => Outcome.ok (Value.vBool true) Ty.boolean s2

/-- Kernel of the `Gt` case of `evaluate`. -/
def gtK (lv : Value) (lt : Ty) (rv : Value) (rt : Ty) (s2 : State) : Outcome :=
  if lt ≠ rt then Outcome.err Err.interpTypeError
  else
    match lt with
    | Ty.integer | Ty.boolean | Ty.string | Ty.floatingPoint =>
      match pyGt lv rv with
      | Option.some b => Outcome.ok (Value.vBool b) Ty.boolean s2
      | Option.none => Outcome.crash
    | Ty.unit => Outcome.ok (Value.vBool false) Ty.boolean s2

/-- Kernel of the `Gte` case of `evaluate`. -/
def gteK (lv : Value) (lt : Ty) (rv : Value) (rt : Ty) (s2 : State) : Outcome :=
  if lt ≠ rt then Outcome.err Err.interpTypeError
  else
    match lt with
    | Ty.integer | Ty.boolean | Ty.string | Ty.floatingPoint =>
      match pyGe lv rv with
      | Option.some b => Outcome.ok (Value.vBool b) Ty.boolean s2
      | Option.none => Outcome.crash
    | Ty.unit => Outcome.ok (Value.vBool true) Ty.boolean s2

/-- Kernel of the `Eq` case of `evaluate`. -/
def eqK (lv : Value) (lt : Ty) (rv : Value) (rt : Ty) (s2 : State) : Outcome :=
  if lt ≠ rt then Outcome.err Err.interpTypeError
  else
    match lt with
    | Ty.integer | Ty.boolean | Ty.string | Ty.floatingPoint =>
      Outcome.ok (Value.vBool (pyEq lv rv)) Ty.boolean s2
    | Ty.unit => Outcome.ok (Value.vBool true) Ty.boolean s2

/-- Kernel of the `Ne` case of `evaluate`. -/
def neK (lv : Value) (lt : Ty) (rv : Value) (rt : Ty) (s2 : State) : Outcome :=
  if lt ≠ rt then Outcome.err Err.interpTypeError
  else
    match lt with
    | Ty.integer | Ty.boolean | Ty.string | Ty.floatingPoint =>
      Outcome.ok (Value.vBool (! pyEq lv rv)) Ty.boolean s2
    | Ty.unit => Outcome.ok (Value.vBool false) Ty.boolean s2

/-- Unfolding: the `Add` case is `binResult` with kernel `addK`. -/
theorem run_add_eq (n : Nat) (l r : Expr) (s : State) :
    evalFuel (n+1) (Job.run (Expr.add l r) s) = binResult addK n l r s := rfl

/-- Unfolding: the `Subtract` case is `binResult` with kernel `subK`. -/
theorem run_sub_eq (n : Nat) (l r : Expr) (s : State) :
    evalFuel (n+1) (Job.run (Expr.subtract l r) s) = binResult subK n l r s := rfl

/-- Unfolding: the `Multiply` case is `binResult` with kernel `mulK`. -/
theorem run_mul_eq (n : Nat) (l r : Expr) (s : State) :
    evalFuel (n+1) (Job.run (Expr.multiply l r) s) = binResult mulK n l r s := rfl

/-- Unfolding: the `Divide` case is `binResult` with kernel `divK`. -/
theorem run_div_eq (n : Nat) (l r : Expr) (s : State) :
    evalFuel (n+1) (Job.run (Expr.divide l r) s) = binResult divK n l r s := rfl

/-- Unfolding: the `And` case is `binResult` with kernel `andK`. -/
theorem run_and_eq (n : Nat) (l r : Expr) (s : State) :
    evalFuel (n+1) (Job.run (Expr.and l r) s) = binResult andK n l r s := rfl

/-- Unfolding: the `Or` case is `binResult` with kernel `orK`. -/
theorem run_or_eq (n : Nat) (l r : Expr) (s : State) :
    evalFuel (n+1) (Job.run (Expr.or l r) s) = binResult orK n l r s := rfl

/-- Unfolding: the `Lt` case is `binResult` with kernel `ltK`. -/
theorem run_lt_eq (n : Nat) (l r : Expr) (s : State) :
    evalFuel (n+1) (Job.run (Expr.lt l r) s) = binResult ltK n l r s := rfl

/-- Unfolding: the `Lte` case is `binResult` with kernel `lteK`. -/
theorem run_lte_eq (n : Nat) (l r : Expr) (s : State) :
    evalFuel (n+1) (Job.run (Expr.lte l r) s) = binResult lteK n l r s := rfl

/-- Unfolding: the `Gt` case is `binResult` with kernel `gtK`. -/
theorem run_gt_eq (n : Nat) (l r : Expr) (s : State) :
    evalFuel (n+1) (Job.run (Expr.gt l r) s) = binResult gtK n l r s := rfl

/-- Unfolding: the `Gte` case is `binResult` with kernel `gteK`. -/
theorem run_gte_eq (n : Nat) (l r : Expr) (s : State) :
    evalFuel (n+1) (Job.run (Expr.gte l r) s) = binResult gteK n l r s := rfl

/-- Unfolding: the `Eq` case is `binResult` with kernel `eqK`. -/
theorem run_eq_eq (n : Nat) (l r : Expr) (s : State) :
    evalFuel (n+1) (Job.run (Expr.eq l r) s) = binResult eqK n l r s := rfl

/-- Unfolding: the `Ne` case is `binResult` with kernel `neK`. -/
theorem run_ne_eq (n : Nat) (l r : Expr) (s : State) :
    evalFuel (n+1) (Job.run (Expr.ne l r) s) = binResult neK n l r s := rfl

/-- Unfolding: the `While` case evaluates the condition, checks its tag
and enters the loop. -/
theorem run_while_eq (n : Nat) (c b : Expr) (s : State) :
    evalFuel (n+1) (Job.run (Expr.whileE c b) s) =
      (match evalFuel n (Job.run c s) with
        | Outcome.ok v t s1 =>
          (match t with
            | Ty.boolean => evalFuel n (Job.loop c b v s1)
            | _ => Outcome.err Err.interpTypeError)
        | r => r) := rfl

/-- Unfolding: a falsy loop value exits the `while` loop immediately,
returning the falsy condition value with the `Boolean` tag. -/
theorem loop_exit_eq (fuel : Nat) (c b : Expr) (v : Value) (s : State)
    (hv : truthy v = false) :
    evalFuel fuel (Job.loop c b v s) = Outcome.ok v Ty.boolean s := by
  cases fuel <;> simp only [evalFuel, hv, Bool.false_eq_true, if_false]

/-- Unfolding: a truthy loop value runs the body, re-evaluates and
re-checks the condition, and loops. -/
theorem loop_step_eq (n : Nat) (c b : Expr) (v : Value) (s : State)
    (hv : truthy v = true) :
    evalFuel (n+1) (Job.loop c b v s) =
      (match evalFuel n (Job.run b s) with
        | Outcome.ok _ _ s2 =>
          (match evalFuel n (Job.run c s2) with
            | Outcome.ok v2 t2 s3 =>
              (match t2 with
                | Ty.boolean => evalFuel n (Job.loop c b v2 s3)
                | _ => Outcome.err Err.interpTypeError)
            | r => r)
        | r => r) := by
  simp only [evalFuel, hv, if_true]

/-- Unfolding: the no-op node returns `(None, Unit, state)`. -/
theorem run_ren_eq (n : Nat) (s : State) :
    evalFuel (n+1) (Job.run Expr.ren s) = Outcome.ok Value.vNone Ty.unit s := rfl

/-- Unfolding: an integer literal returns its value tagged `Integer`. -/
theorem run_int_eq (n : Nat) (l : Int) (s : State) :
    evalFuel (n+1) (Job.run (Expr.intLiteral l) s)
      = Outcome.ok (Value.vInt l) Ty.integer s := rfl

/-- Unfolding: a float literal returns its value tagged `FloatingPoint`. -/
theorem run_float_eq (n : Nat) (l : Rat) (s : State) :
    evalFuel (n+1) (Job.run (Expr.floatingPointLiteral l) s)
      = Outcome.ok (Value.vFloat l) Ty.floatingPoint s := rfl

/-- Unfolding: a string literal returns its value tagged `String`. -/
theorem run_string_eq (n : Nat) (l : String) (s : State) :
    evalFuel (n+1) (Job.run (Expr.stringLiteral l) s)
      = Outcome.ok (Value.vStr l) Ty.string s := rfl

/-- Unfolding: a boolean literal returns its value tagged `Boolean`. -/
theorem run_bool_eq (n : Nat) (l : Bool) (s : State) :
    evalFuel (n+1) (Job.run (Expr.booleanLiteral l) s)
      = Outcome.ok (Value.vBool l) Ty.boolean s := rfl

/-- Unfolding: `Print` evaluates its operand and passes its result
through (the write to stdout is not modelled). -/
theorem run_print_eq (n : Nat) (p : Expr) (s : State) :
    evalFuel (n+1) (Job.run (Expr.print p) s) =
      (match evalFuel n (Job.run p s) with
        | Outcome.ok v t s1 => Outcome.ok v t s1
        | r => r) := rfl

/-- Unfolding: an empty `Sequence` evaluates the no-op node. -/
theorem run_seq_nil_eq (n : Nat) (s : State) :
    evalFuel (n+1) (Job.run (Expr.sequence []) s)
      = evalFuel n (Job.run Expr.ren s) := rfl

/-- Unfolding: a non-empty `Sequence` evaluates its head, then recurses
on the tail when the tail is non-empty. -/
theorem run_seq_cons_eq (n : Nat) (e0 : Expr) (rest : List Expr) (s : State) :
    evalFuel (n+1) (Job.run (Expr.sequence (e0 :: rest)) s) =
      (match evalFuel n (Job.run e0 s) with
        | Outcome.ok v t s1 =>
          (match rest with
            | [] => Outcome.ok v t s1
            | _ => evalFuel n (Job.run (Expr.sequence rest) s1))
        | r => r) := rfl

/-- Unfolding: an empty `Program` evaluates the no-op node. -/
theorem run_prog_nil_eq (n : Nat) (s : State) :
    evalFuel (n+1) (Job.run (Expr.program []) s)
      = evalFuel n (Job.run Expr.ren s) := rfl

/-- Unfolding: a non-empty `Program` evaluates its head, then recurses
as a `Sequence` when the tail is non-empty (the source rebuilds the
remainder as `Sequence(*exprs[1:])`). -/
theorem run_prog_cons_eq (n : Nat) (e0 : Expr) (rest : List Expr) (s : State) :
    evalFuel (n+1) (Job.run (Expr.program (e0 :: rest)) s) =
      (match evalFuel n (Job.run e0 s) with
        | Outcome.ok v t s1 =>
          (match rest with
            | [] => Outcome.ok v t s1
            | _ => evalFuel n (Job.run (Expr.sequence rest) s1))
        | r => r) := rfl

/-- Unfolding: `Variable` looks the name up; missing names raise the
syntax-class error, found ones return their pair with the state
unchanged. -/
theorem run_var_eq (n : Nat) (x : String) (s : State) :
    evalFuel (n+1) (Job.run (Expr.variable x) s) =
      (match s.get_value x with
        | Option.none => Outcome.err Err.interpSyntaxError
        | Option.some (v, t) => Outcome.ok v t s) := rfl

/-- Unfolding: `Assign` evaluates the value expression, consults the
resulting state for a prior binding, checks the type and extends. -/
theorem run_assign_eq (n : Nat) (x : String) (ve : Expr) (s : State) :
    evalFuel (n+1) (Job.run (Expr.assign x ve) s) =
      (match evalFuel n (Job.run ve s) with
        | Outcome.ok v t s1 =>
          (match s1.get_value x with
            | Option.some (_, vt) =>
              if t ≠ vt then Outcome.err Err.interpTypeError
              else Outcome.ok v t (s1.set_value x v t)
            | Option.none => Outcome.ok v t (s1.set_value x v t))
        | r => r) := rfl

/-- Unfolding: `Not` evaluates its operand, requires the `Boolean` tag
and negates the truthiness. -/
theorem run_not_eq (n : Nat) (e1 : Expr) (s : State) :
    evalFuel (n+1) (Job.run (Expr.not e1) s) =
      (match evalFuel n (Job.run e1 s) with
        | Outcome.ok v t s1 =>
          (match t with
            | Ty.boolean => Outcome.ok (Value.vBool (! truthy v)) t s1
            | _ => Outcome.err Err.interpTypeError)
        | r => r) := rfl

/-- Unfolding: `If` evaluates the condition, requires the `Boolean` tag
and evaluates exactly one branch against the condition's state. -/
theorem run_if_eq (n : Nat) (c a b : Expr) (s : State) :
    evalFuel (n+1) (Job.run (Expr.ifE c a b) s) =
      (match evalFuel n (Job.run c s) with
        | Outcome.ok v t s1 =>
          (match t with
            | Ty.boolean =>
              if truthy v then evalFuel n (Job.run a s1)
              else evalFuel n (Job.run b s1)
            | _ => Outcome.err Err.interpTypeError)
        | r => r) := rfl

/-- `Print` once its operand's outcome is known. -/
theorem run_print_ok (n : Nat) (p : Expr) (s : State) (v1 : Value) (t1 : Ty)
    (s1 : State) (hv : evalFuel n (Job.run p s) = Outcome.ok v1 t1 s1) :
    evalFuel (n+1) (Job.run (Expr.print p) s) = Outcome.ok v1 t1 s1 := by
  rw [run_print_eq, hv]

/-- A non-empty `Sequence` once its head's outcome is known. -/
theorem run_seq_cons_ok (n : Nat) (e0 : Expr) (rest : List Expr) (s : State)
    (v1 : Value) (t1 : Ty) (s1 : State)
    (hv : evalFuel n (Job.run e0 s) = Outcome.ok v1 t1 s1) :
    evalFuel (n+1) (Job.run (Expr.sequence (e0 :: rest)) s) =
      (match rest with
        | [] => Outcome.ok v1 t1 s1
        | _ => evalFuel n (Job.run (Expr.sequence rest) s1)) := by
  rw [run_seq_cons_eq, hv]

/-- A non-empty `Program` once its head's outcome is known. -/
theorem run_prog_cons_ok (n : Nat) (e0 : Expr) (rest : List Expr) (s : State)
    (v1 : Value) (t1 : Ty) (s1 : State)
    (hv : evalFuel n (Job.run e0 s) = Outcome.ok v1 t1 s1) :
    evalFuel (n+1) (Job.run (Expr.program (e0 :: rest)) s) =
      (match rest with
        | [] => Outcome.ok v1 t1 s1
        | _ => evalFuel n (Job.run (Expr.sequence rest) s1)) := by
  rw [run_prog_cons_eq, hv]

/-- `Assign` once its value expression's outcome is known. -/
theorem run_assign_ok (n : Nat) (x : String) (ve : Expr) (s : State)
    (v1 : Value) (t1 : Ty) (s1 : State)
    (hv : evalFuel n (Job.run ve s) = Outcome.ok v1 t1 s1) :
    evalFuel (n+1) (Job.run (Expr.assign x ve) s) =
      (match s1.get_value x with
        | Option.some (_, vt) =>
          if t1 ≠ vt then Outcome.err Err.interpTypeError
          else Outcome.ok v1 t1 (s1.set_value x v1 t1)
        | Option.none => Outcome.ok v1 t1 (s1.set_value x v1 t1)) := by
  rw [run_assign_eq, hv]

/-- `Assign` when the value is known and a prior binding exists. -/
theorem run_assign_found (n : Nat) (x : String) (ve : Expr) (s : State)
    (v1 : Value) (t1 : Ty) (s1 : State) (v0 : Value) (vt : Ty)
    (hv : evalFuel n (Job.run ve s) = Outcome.ok v1 t1 s1)
    (hg : s1.get_value x = Option.some (v0, vt)) :
    evalFuel (n+1) (Job.run (Expr.assign x ve) s) =
      (if t1 ≠ vt then Outcome.err Err.interpTypeError
       else Outcome.ok v1 t1 (s1.set_value x v1 t1)) := by
  rw [run_assign_ok n x ve s v1 t1 s1 hv, hg]

/-- `Assign` when the value is known and no prior binding exists. -/
theorem run_assign_new (n : Nat) (x : String) (ve : Expr) (s : State)
    (v1 : Value) (t1 : Ty) (s1 : State)
    (hv : evalFuel n (Job.run ve s) = Outcome.ok v1 t1 s1)
    (hg : s1.get_value x = Option.none) :
    evalFuel (n+1) (Job.run (Expr.assign x ve) s)
      = Outcome.ok v1 t1 (s1.set_value x v1 t1) := by
  rw [run_assign_ok n x ve s v1 t1 s1 hv, hg]

/-- `Not` once its operand's outcome is known. -/
theorem run_not_ok (n : Nat) (e1 : Expr) (s : State) (v1 : Value) (t1 : Ty)
    (s1 : State) (hv : evalFuel n (Job.run e1 s) = Outcome.ok v1 t1 s1) :
    evalFuel (n+1) (Job.run (Expr.not e1) s) =
      (if t1 = Ty.boolean then Outcome.ok (Value.vBool (! truthy v1)) t1 s1
       else Outcome.err Err.interpTypeError) := by
  rw [run_not_eq, hv]
  cases t1 <;> simp

/-- `If` once its condition's outcome is known. -/
theorem run_if_ok (n : Nat) (c a b : Expr) (s : State) (v1 : Value) (t1 : Ty)
    (s1 : State) (hv : evalFuel n (Job.run c s) = Outcome.ok v1 t1 s1) :
    evalFuel (n+1) (Job.run (Expr.ifE c a b) s) =
      (if t1 = Ty.boolean then
        (if truthy v1 then evalFuel n (Job.run a s1)
         else evalFuel n (Job.run b s1))
       else Outcome.err Err.interpTypeError) := by
  rw [run_if_eq, hv]
  cases t1 <;> simp

/-- `While` once its condition's outcome is known. -/
theorem run_while_ok (n : Nat) (c b : Expr) (s : State) (v1 : Value) (t1 : Ty)
    (s1 : State) (hv : evalFuel n (Job.run c s) = Outcome.ok v1 t1 s1) :
    evalFuel (n+1) (Job.run (Expr.whileE c b) s) =
      (if t1 = Ty.boolean then evalFuel n (Job.loop c b v1 s1)
       else Outcome.err Err.interpTypeError) := by
  rw [run_while_eq, hv]
  cases t1 <;> simp

/-- The loop step once the body's outcome is known. -/
theorem loop_step_body_ok (n : Nat) (c b : Expr) (v : Value) (s : State)
    (vb : Value) (tb : Ty) (s2 : State) (htr : truthy v = true)
    (hb : evalFuel n (Job.run b s) = Outcome.ok vb tb s2) :
    evalFuel (n+1) (Job.loop c b v s) =
      (match evalFuel n (Job.run c s2) with
        | Outcome.ok v2 t2 s3 =>
          (match t2 with
            | Ty.boolean => evalFuel n (Job.loop c b v2 s3)
            | _ => Outcome.err Err.interpTypeError)
        | r => r) := by
  rw [loop_step_eq n c b v s htr, hb]

/-- At fuel 0, evaluating any expression reports exhausted fuel. -/
theorem run_zero_eq (e : Expr) (s : State) :
    evalFuel 0 (Job.run e s) = Outcome.fuelOut := rfl

/-- At fuel 0 a truthy loop value cannot proceed. -/
theorem loop_zero_stuck (c b : Expr) (v : Value) (s : State)
    (hv : truthy v = true) :
    evalFuel 0 (Job.loop c b v s) = Outcome.fuelOut := by
  simp only [evalFuel, hv, if_true]

/-- A value well tagged as `Boolean` is a host bool. -/
theorem wt_boolean_shape (v : Value) (h : wt v Ty.boolean = true) :
    ∃ b, v = Value.vBool b := by
  cases v <;> simp [wt] at h ⊢

/-- Looking a name up in a well-tagged state yields a well-tagged pair. -/
theorem wts_get (s : State) (x : String) (v : Value) (t : Ty)
    (hs : wts s = true) (h : s.get_value x = Option.some (v, t)) :
    wt v t = true := by
  induction s with
  | empty => simp [State.get_value] at h
  | frame n v0 t0 next ihn =>
    simp only [wts, Bool.and_eq_true] at hs
    simp only [State.get_value] at h
    by_cases hx : n = x
    · rw [if_pos hx] at h
      obtain ⟨rfl, rfl⟩ := by simpa using h
      exact hs.1
    · rw [if_neg hx] at h
      exact ihn hs.2 h

/-- Extending a well-tagged state with a well-tagged binding keeps the
state well tagged. -/
theorem wts_set (s : State) (x : String) (v : Value) (t : Ty)
    (hs : wts s = true) (hv : wt v t = true) :
    wts (s.set_value x v t) = true := by
  simp [State.set_value, wts, hs, hv]

/-- Unfolding `binResult` once the left operand's outcome is known. -/
theorem binResult_ok_unfold (k : Value → Ty → Value → Ty → State → Outcome)
    (n : Nat) (l r : Expr) (s : State) (lv : Value) (lt : Ty) (s1 : State)
    (hl : evalFuel n (Job.run l s) = Outcome.ok lv lt s1) :
    binResult k n l r s =
      (match evalFuel n (Job.run r s1) with
        | Outcome.ok rv rt s2 => k lv lt rv rt s2
        | r2 => r2) := by
  unfold binResult
  rw [hl]

/-- Well-taggedness propagates through the binary-operator skeleton
provided the kernel preserves it. -/
theorem binResult_wt (n : Nat) (k : Value → Ty → Value → Ty → State → Outcome)
    (l r : Expr) (s : State) (v : Value) (t : Ty) (s' : State)
    (ihrun : ∀ e s0 v0 t0 s0', wts s0 = true →
        evalFuel n (Job.run e s0) = Outcome.ok v0 t0 s0' →
        wt v0 t0 = true ∧ wts s0' = true)
    (hs : wts s = true)
    (hk : ∀ lv lt rv rt s2 v0 t0 s0', wt lv lt = true → wt rv rt = true →
        wts s2 = true → k lv lt rv rt s2 = Outcome.ok v0 t0 s0' →
        wt v0 t0 = true ∧ wts s0' = true)
    (h : binResult k n l r s = Outcome.ok v t s') :
    wt v t = true ∧ wts s' = true := by
  rcases hl : evalFuel n (Job.run l s) with ⟨lv, lt, s1⟩ | e1 | _ | _
  · rw [binResult_ok_unfold k n l r s lv lt s1 hl] at h
    obtain ⟨hwl, hs1⟩ := ihrun l s lv lt s1 hs hl
    rcases hr : evalFuel n (Job.run r s1) with ⟨rv, rt, s2⟩ | e2 | _ | _ <;> rw [hr] at h
    · obtain ⟨hwr, hs2⟩ := ihrun r s1 rv rt s2 hs1 hr
      exact hk lv lt rv rt s2 v t s' hwl hwr hs2 h
    · exact Outcome.noConfusion h
    · exact Outcome.noConfusion h
    · exact Outcome.noConfusion h
  · unfold binResult at h; rw [hl] at h; exact Outcome.noConfusion h
  · unfold binResult at h; rw [hl] at h; exact Outcome.noConfusion h
  · unfold binResult at h; rw [hl] at h; exact Outcome.noConfusion h

/-- The `Add` kernel preserves well-taggedness. -/
theorem addK_wt : ∀ lv lt rv rt s2 v0 t0 s0', wt lv lt = true → wt rv rt = true →
    wts s2 = true → addK lv lt rv rt s2 = Outcome.ok v0 t0 s0' →
    wt v0 t0 = true ∧ wts s0' = true := by
  intro lv lt rv rt s2 v0 t0 s0' hl hr hs2 hk
  unfold addK at hk
  (repeat' split at hk) <;>
    first
    | exact Outcome.noConfusion hk
    | (obtain ⟨rfl, rfl, rfl⟩ := by simpa using hk
       cases lv <;> cases rv <;> simp_all [pyAdd, wt] <;> subst_vars <;> simp_all [wt])

/-- The `Subtract` kernel preserves well-taggedness. -/
theorem subK_wt : ∀ lv lt rv rt s2 v0 t0 s0', wt lv lt = true → wt rv rt = true →
    wts s2 = true → subK lv lt rv rt s2 = Outcome.ok v0 t0 s0' →
    wt v0 t0 = true ∧ wts s0' = true := by
  intro lv lt rv rt s2 v0 t0 s0' hl hr hs2 hk
  unfold subK at hk
  (repeat' split at hk) <;>
    first
    | exact Outcome.noConfusion hk
    | (obtain ⟨rfl, rfl, rfl⟩ := by simpa using hk
       cases lv <;> cases rv <;> simp_all [pySub, wt] <;> subst_vars <;> simp_all [wt])

/-- The `Multiply` kernel preserves well-taggedness. -/
theorem mulK_wt : ∀ lv lt rv rt s2 v0 t0 s0', wt lv lt = true → wt rv rt = true →
    wts s2 = true → mulK lv lt rv rt s2 = Outcome.ok v0 t0 s0' →
    wt v0 t0 = true ∧ wts s0' = true := by
  intro lv lt rv rt s2 v0 t0 s0' hl hr hs2 hk
  unfold mulK at hk
  (repeat' split at hk) <;>
    first
    | exact Outcome.noConfusion hk
    | (obtain ⟨rfl, rfl, rfl⟩ := by simpa using hk
       cases lv <;> cases rv <;> simp_all [pyMul, wt] <;> subst_vars <;> simp_all [wt])

/-- The `Divide` kernel preserves well-taggedness. -/
theorem divK_wt : ∀ lv lt rv rt s2 v0 t0 s0', wt lv lt = true → wt rv rt = true →
    wts s2 = true → divK lv lt rv rt s2 = Outcome.ok v0 t0 s0' →
    wt v0 t0 = true ∧ wts s0' = true := by
  intro lv lt rv rt s2 v0 t0 s0' hl hr hs2 hk
  unfold divK at hk
  (repeat' split at hk) <;>
    first
    | exact Outcome.noConfusion hk
    | (obtain ⟨rfl, rfl, rfl⟩ := by simpa using hk
       cases lv <;> cases rv <;> simp_all [pyFloorDiv, pyTrueDiv, wt] <;> subst_vars <;> simp_all [wt])

/-- On two host bools, Python `and` computes boolean conjunction. -/
theorem pyAnd_bool (a c : Bool) :
    pyAnd (Value.vBool a) (Value.vBool c) = Value.vBool (a && c) := by
  cases a <;> simp [pyAnd, truthy]

/-- On two host bools, Python `or` computes boolean disjunction. -/
theorem pyOr_bool (a c : Bool) :
    pyOr (Value.vBool a) (Value.vBool c) = Value.vBool (a || c) := by
  cases a <;> simp [pyOr, truthy]

/-- The `And` kernel preserves well-taggedness. -/
theorem andK_wt : ∀ lv lt rv rt s2 v0 t0 s0', wt lv lt = true → wt rv rt = true →
    wts s2 = true → andK lv lt rv rt s2 = Outcome.ok v0 t0 s0' →
    wt v0 t0 = true ∧ wts s0' = true := by
  intro lv lt rv rt s2 v0 t0 s0' hl hr hs2 hk
  unfold andK at hk
  (repeat' split at hk) <;>
    first
    | exact Outcome.noConfusion hk
    | (obtain ⟨rfl, rfl, rfl⟩ := by simpa using hk
       cases lv <;> cases rv <;> simp_all [pyAnd_bool, wt] <;> subst_vars <;> simp_all [pyAnd_bool, wt])

/-- The `Or` kernel preserves well-taggedness. -/
theorem orK_wt : ∀ lv lt rv rt s2 v0 t0 s0', wt lv lt = true → wt rv rt = true →
    wts s2 = true → orK lv lt rv rt s2 = Outcome.ok v0 t0 s0' →
    wt v0 t0 = true ∧ wts s0' = true := by
  intro lv lt rv rt s2 v0 t0 s0' hl hr hs2 hk
  unfold orK at hk
  (repeat' split at hk) <;>
    first
    | exact Outcome.noConfusion hk
    | (obtain ⟨rfl, rfl, rfl⟩ := by simpa using hk
       cases lv <;> cases rv <;> simp_all [pyOr_bool, wt] <;> subst_vars <;> simp_all [pyOr_bool, wt])

/-- The `Lt` kernel preserves well-taggedness. -/
theorem ltK_wt : ∀ lv lt rv rt s2 v0 t0 s0', wt lv lt = true → wt rv rt = true →
    wts s2 = true → ltK lv lt rv rt s2 = Outcome.ok v0 t0 s0' →
    wt v0 t0 = true ∧ wts s0' = true := by
  intro lv lt rv rt s2 v0 t0 s0' hl hr hs2 hk
  unfold ltK at hk
  (repeat' split at hk) <;>
    first
    | exact Outcome.noConfusion hk
    | (obtain ⟨rfl, rfl, rfl⟩ := by simpa using hk
       simp_all [wt])

/-- The `Lte` kernel preserves well-taggedness. -/
theorem lteK_wt : ∀ lv lt rv rt s2 v0 t0 s0', wt lv lt = true → wt rv rt = true →
    wts s2 = true → lteK lv lt rv rt s2 = Outcome.ok v0 t0 s0' →
    wt v0 t0 = true ∧ wts s0' = true := by
  intro lv lt rv rt s2 v0 t0 s0' hl hr hs2 hk
  unfold lteK at hk
  (repeat' split at hk) <;>
    first
    | exact Outcome.noConfusion hk
    | (obtain ⟨rfl, rfl, rfl⟩ := by simpa using hk
       simp_all [wt])

/-- The `Gt` kernel preserves well-taggedness. -/
theorem gtK_wt : ∀ lv lt rv rt s2 v0 t0 s0', wt lv lt = true → wt rv rt = true →
    wts s2 = true → gtK lv lt rv rt s2 = Outcome.ok v0 t0 s0' →
    wt v0 t0 = true ∧ wts s0' = true := by
  intro lv lt rv rt s2 v0 t0 s0' hl hr hs2 hk
  unfold gtK at hk
  (repeat' split at hk) <;>
    first
    | exact Outcome.noConfusion hk
    | (obtain ⟨rfl, rfl, rfl⟩ := by simpa using hk
       simp_all [wt])

/-- The `Gte` kernel preserves well-taggedness. -/
theorem gteK_wt : ∀ lv lt rv rt s2 v0 t0 s0', wt lv lt = true → wt rv rt = true →
    wts s2 = true → gteK lv lt rv rt s2 = Outcome.ok v0 t0 s0' →
    wt v0 t0 = true ∧ wts s0' = true := by
  intro lv lt rv rt s2 v0 t0 s0' hl hr hs2 hk
  unfold gteK at hk
  (repeat' split at hk) <;>
    first
    | exact Outcome.noConfusion hk
    | (obtain ⟨rfl, rfl, rfl⟩ := by simpa using hk
       simp_all [wt])

/-- The `Eq` kernel preserves well-taggedness. -/
theorem eqK_wt : ∀ lv lt rv rt s2 v0 t0 s0', wt lv lt = true → wt rv rt = true →
    wts s2 = true → eqK lv lt rv rt s2 = Outcome.ok v0 t0 s0' →
    wt v0 t0 = true ∧ wts s0' = true := by
  intro lv lt rv rt s2 v0 t0 s0' hl hr hs2 hk
  unfold eqK at hk
  (repeat' split at hk) <;>
    first
    | exact Outcome.noConfusion hk
    | (obtain ⟨rfl, rfl, rfl⟩ := by simpa using hk
       simp_all [wt])

/-- The `Ne` kernel preserves well-taggedness. -/
theorem neK_wt : ∀ lv lt rv rt s2 v0 t0 s0', wt lv lt = true → wt rv rt = true →
    wts s2 = true → neK lv lt rv rt s2 = Outcome.ok v0 t0 s0' →
    wt v0 t0 = true ∧ wts s0' = true := by
  intro lv lt rv rt s2 v0 t0 s0' hl hr hs2 hk
  unfold neK at hk
  (repeat' split at hk) <;>
    first
    | exact Outcome.noConfusion hk
    | (obtain ⟨rfl, rfl, rfl⟩ := by simpa using hk
       simp_all [wt])

/-- Evaluation preserves well-taggedness: from a well-tagged state a
successful evaluation yields a well-tagged `(value, type)` pair and a
well-tagged state, and a successful `while` loop always ends on the
falsy `Boolean` condition value `false`. -/
theorem evalFuel_wt : ∀ fuel : Nat,
    (∀ e s v t s', wts s = true → evalFuel fuel (Job.run e s) = Outcome.ok v t s' →
        wt v t = true ∧ wts s' = true)
  ∧ (∀ c b v s v' t' s', wts s = true → wt v Ty.boolean = true →
        evalFuel fuel (Job.loop c b v s) = Outcome.ok v' t' s' →
        v' = Value.vBool false ∧ t' = Ty.boolean ∧ wts s' = true) := by
  intro fuel
  induction fuel with
  | zero =>
    constructor
    · intro e s v t s' _ h
      rw [run_zero_eq] at h
      exact Outcome.noConfusion h
    · intro c b v s v' t' s' hs hv h
      rcases htr : truthy v with _ | _
      · rw [loop_exit_eq 0 c b v s htr] at h
        obtain ⟨bb, rfl⟩ := wt_boolean_shape v hv
        simp only [truthy] at htr
        subst htr
        obtain ⟨rfl, rfl, rfl⟩ := by simpa using h
        exact ⟨rfl, rfl, hs⟩
      · rw [loop_zero_stuck c b v s htr] at h
        exact Outcome.noConfusion h
  | succ n ih =>
    obtain ⟨ihr, ihl⟩ := ih
    constructor
    · intro e s v t s' hs h
      cases e with
      | ren =>
        rw [run_ren_eq] at h
        obtain ⟨rfl, rfl, rfl⟩ := by simpa using h
        exact ⟨rfl, hs⟩
      | intLiteral l =>
        rw [run_int_eq] at h
        obtain ⟨rfl, rfl, rfl⟩ := by simpa using h
        exact ⟨rfl, hs⟩
      | floatingPointLiteral l =>
        rw [run_float_eq] at h
        obtain ⟨rfl, rfl, rfl⟩ := by simpa using h
        exact ⟨rfl, hs⟩
      | stringLiteral l =>
        rw [run_string_eq] at h
        obtain ⟨rfl, rfl, rfl⟩ := by simpa using h
        exact ⟨rfl, hs⟩
      | booleanLiteral l =>
        rw [run_bool_eq] at h
        obtain ⟨rfl, rfl, rfl⟩ := by simpa using h
        exact ⟨rfl, hs⟩
      | print p =>
        rcases hp : evalFuel n (Job.run p s) with ⟨v1, t1, s1⟩ | e1 | _ | _
        · rw [run_print_ok n p s v1 t1 s1 hp] at h
          obtain ⟨rfl, rfl, rfl⟩ := by simpa using h
          exact ihr p s _ _ _ hs hp
        · rw [run_print_eq, hp] at h
          exact Outcome.noConfusion h
        · rw [run_print_eq, hp] at h
          exact Outcome.noConfusion h
        · rw [run_print_eq, hp] at h
          exact Outcome.noConfusion h
      | sequence exprs =>
        cases exprs with
        | nil =>
          rw [run_seq_nil_eq] at h
          exact ihr Expr.ren s v t s' hs h
        | cons e0 rest =>
          rcases h0 : evalFuel n (Job.run e0 s) with ⟨v1, t1, s1⟩ | e1 | _ | _
          · obtain ⟨hw1, hs1⟩ := ihr e0 s v1 t1 s1 hs h0
            rw [run_seq_cons_ok n e0 rest s v1 t1 s1 h0] at h
            cases rest with
            | nil =>
              obtain ⟨rfl, rfl, rfl⟩ := by simpa using h
              exact ⟨hw1, hs1⟩
            | cons e2 rest2 =>
              exact ihr (Expr.sequence (e2 :: rest2)) s1 v t s' hs1 h
          · rw [run_seq_cons_eq, h0] at h
            exact Outcome.noConfusion h
          · rw [run_seq_cons_eq, h0] at h
            exact Outcome.noConfusion h
          · rw [run_seq_cons_eq, h0] at h
            exact Outcome.noConfusion h
      | program exprs =>
        cases exprs with
        | nil =>
          rw [run_prog_nil_eq] at h
          exact ihr Expr.ren s v t s' hs h
        | cons e0 rest =>
          rcases h0 : evalFuel n (Job.run e0 s) with ⟨v1, t1, s1⟩ | e1 | _ | _
          · obtain ⟨hw1, hs1⟩ := ihr e0 s v1 t1 s1 hs h0
            rw [run_prog_cons_ok n e0 rest s v1 t1 s1 h0] at h
            cases rest with
            | nil =>
              obtain ⟨rfl, rfl, rfl⟩ := by simpa using h
              exact ⟨hw1, hs1⟩
            | cons e2 rest2 =>
              exact ihr (Expr.sequence (e2 :: rest2)) s1 v t s' hs1 h
          · rw [run_prog_cons_eq, h0] at h
            exact Outcome.noConfusion h
          · rw [run_prog_cons_eq, h0] at h
            exact Outcome.noConfusion h
          · rw [run_prog_cons_eq, h0] at h
            exact Outcome.noConfusion h
      | «variable» x =>
        rw [run_var_eq] at h
        rcases hg : State.get_value s x with _ | ⟨v0, t0⟩ <;> rw [hg] at h
        · exact Outcome.noConfusion h
        · obtain ⟨rfl, rfl, rfl⟩ := by simpa using h
          exact ⟨wts_get s x _ _ hs hg, hs⟩
      | assign x ve =>
        rcases hv : evalFuel n (Job.run ve s) with ⟨v1, t1, s1⟩ | e1 | _ | _
        · obtain ⟨hw1, hs1⟩ := ihr ve s v1 t1 s1 hs hv
          rcases hg : State.get_value s1 x with _ | ⟨v0, vt⟩
          · rw [run_assign_new n x ve s v1 t1 s1 hv hg] at h
            obtain ⟨rfl, rfl, rfl⟩ := by simpa using h
            exact ⟨hw1, wts_set s1 x _ _ hs1 hw1⟩
          · rw [run_assign_found n x ve s v1 t1 s1 v0 vt hv hg] at h
            by_cases hty : t1 = vt
            · rw [if_neg (by simpa using hty)] at h
              obtain ⟨rfl, rfl, rfl⟩ := by simpa using h
              exact ⟨hw1, wts_set s1 x _ _ hs1 hw1⟩
            · rw [if_pos hty] at h
              exact Outcome.noConfusion h
        · rw [run_assign_eq, hv] at h
          exact Outcome.noConfusion h
        · rw [run_assign_eq, hv] at h
          exact Outcome.noConfusion h
        · rw [run_assign_eq, hv] at h
          exact Outcome.noConfusion h
      | add l r =>
        rw [run_add_eq] at h
        exact binResult_wt n addK l r s v t s' ihr hs addK_wt h
      | subtract l r =>
        rw [run_sub_eq] at h
        exact binResult_wt n subK l r s v t s' ihr hs subK_wt h
      | multiply l r =>
        rw [run_mul_eq] at h
        exact binResult_wt n mulK l r s v t s' ihr hs mulK_wt h
      | divide l r =>
        rw [run_div_eq] at h
        exact binResult_wt n divK l r s v t s' ihr hs divK_wt h
      | and l r =>
        rw [run_and_eq] at h
        exact binResult_wt n andK l r s v t s' ihr hs andK_wt h
      | or l r =>
        rw [run_or_eq] at h
        exact binResult_wt n orK l r s v t s' ihr hs orK_wt h
      | not e1 =>
        rcases hv : evalFuel n (Job.run e1 s) with ⟨v1, t1, s1⟩ | e2 | _ | _
        · obtain ⟨hw1, hs1⟩ := ihr e1 s v1 t1 s1 hs hv
          rw [run_not_ok n e1 s v1 t1 s1 hv] at h
          by_cases ht : t1 = Ty.boolean
          · rw [if_pos ht] at h
            obtain ⟨rfl, rfl, rfl⟩ := by simpa using h
            exact ⟨by simp [ht, wt], hs1⟩
          · rw [if_neg ht] at h
            exact Outcome.noConfusion h
        · rw [run_not_eq, hv] at h
          exact Outcome.noConfusion h
        · rw [run_not_eq, hv] at h
          exact Outcome.noConfusion h
        · rw [run_not_eq, hv] at h
          exact Outcome.noConfusion h
      | ifE c a b =>
        rcases hv : evalFuel n (Job.run c s) with ⟨v1, t1, s1⟩ | e2 | _ | _
        · obtain ⟨hw1, hs1⟩ := ihr c s v1 t1 s1 hs hv
          rw [run_if_ok n c a b s v1 t1 s1 hv] at h
          by_cases ht : t1 = Ty.boolean
          · rw [if_pos ht] at h
            by_cases htr : truthy v1 = true
            · rw [if_pos htr] at h
              exact ihr a s1 v t s' hs1 h
            · rw [if_neg htr] at h
              exact ihr b s1 v t s' hs1 h
          · rw [if_neg ht] at h
            exact Outcome.noConfusion h
        · rw [run_if_eq, hv] at h
          exact Outcome.noConfusion h
        · rw [run_if_eq, hv] at h
          exact Outcome.noConfusion h
        · rw [run_if_eq, hv] at h
          exact Outcome.noConfusion h
      | lt l r =>
        rw [run_lt_eq] at h
        exact binResult_wt n ltK l r s v t s' ihr hs ltK_wt h
      | lte l r =>
        rw [run_lte_eq] at h
        exact binResult_wt n lteK l r s v t s' ihr hs lteK_wt h
      | gt l r =>
        rw [run_gt_eq] at h
        exact binResult_wt n gtK l r s v t s' ihr hs gtK_wt h
      | gte l r =>
        rw [run_gte_eq] at h
        exact binResult_wt n gteK l r s v t s' ihr hs gteK_wt h
      | eq l r =>
        rw [run_eq_eq] at h
        exact binResult_wt n eqK l r s v t s' ihr hs eqK_wt h
      | ne l r =>
        rw [run_ne_eq] at h
        exact binResult_wt n neK l r s v t s' ihr hs neK_wt h
      | whileE c b =>
        rcases hv : evalFuel n (Job.run c s) with ⟨v1, t1, s1⟩ | e2 | _ | _
        · obtain ⟨hw1, hs1⟩ := ihr c s v1 t1 s1 hs hv
          rw [run_while_ok n c b s v1 t1 s1 hv] at h
          by_cases ht : t1 = Ty.boolean
          · rw [if_pos ht] at h
            subst ht
            obtain ⟨rfl, rfl, hsf⟩ := ihl c b v1 s1 v t s' hs1 hw1 h
            exact ⟨rfl, hsf⟩
          · rw [if_neg ht] at h
            exact Outcome.noConfusion h
        · rw [run_while_eq, hv] at h
          exact Outcome.noConfusion h
        · rw [run_while_eq, hv] at h
          exact Outcome.noConfusion h
        · rw [run_while_eq, hv] at h
          exact Outcome.noConfusion h
    · intro c b v s v' t' s' hs hv h
      rcases htr : truthy v with _ | _
      · rw [loop_exit_eq (n+1) c b v s htr] at h
        obtain ⟨bb, rfl⟩ := wt_boolean_shape v hv
        simp only [truthy] at htr
        subst htr
        obtain ⟨rfl, rfl, rfl⟩ := by simpa using h
        exact ⟨rfl, rfl, hs⟩
      · rcases hb : evalFuel n (Job.run b s) with ⟨vb, tb, s2⟩ | e1 | _ | _
        · obtain ⟨hwb, hs2⟩ := ihr b s vb tb s2 hs hb
          rw [loop_step_body_ok n c b v s vb tb s2 htr hb] at h
          rcases hc : evalFuel n (Job.run c s2) with ⟨v2, t2, s3⟩ | e2 | _ | _ <;> rw [hc] at h
          · obtain ⟨hw2, hs3⟩ := ihr c s2 v2 t2 s3 hs2 hc
            cases t2 <;>
              first
              | exact ihl c b v2 s3 v' t' s' hs3 hw2 h
              | exact Outcome.noConfusion h
          · exact Outcome.noConfusion h
          · exact Outcome.noConfusion h
          · exact Outcome.noConfusion h
        · rw [loop_step_eq n c b v s htr, hb] at h
          exact Outcome.noConfusion h
        · rw [loop_step_eq n c b v s htr, hb] at h
          exact Outcome.noConfusion h
        · rw [loop_step_eq n c b v s htr, hb] at h
          exact Outcome.noConfusion h

/-- C8: evaluating `Variable(name)` on an environment with no binding
for the name fails with the syntax-class error and never returns a
default; on a bound name it returns the bound value and type with the
environment unchanged. -/
theorem variable_spec (fuel : Nat) (x : String) (s : State) :
    (s.get_value x = Option.none →
        evaluate (fuel+1) (Expr.variable x) s = Outcome.err Err.interpSyntaxError)
  ∧ (∀ v t, s.get_value x = Option.some (v, t) →
        evaluate (fuel+1) (Expr.variable x) s = Outcome.ok v t s) := by
  constructor
  · intro hg
    unfold evaluate
    rw [run_var_eq, hg]
  · intro v t hg
    unfold evaluate
    rw [run_var_eq, hg]

/-- Witness for C8 at concrete inputs: reading `x` from the empty
environment raises the syntax-class error; reading it from an
environment binding it returns the binding with the state unchanged. -/
theorem variable_spec_witness :
    evaluate 1 (Expr.variable "x") State.empty = Outcome.err Err.interpSyntaxError
  ∧ evaluate 1 (Expr.variable "x")
        (State.frame "x" (Value.vInt 7) Ty.integer State.empty)
      = Outcome.ok (Value.vInt 7) Ty.integer
          (State.frame "x" (Value.vInt 7) Ty.integer State.empty) := by
  constructor
  · exact (variable_spec 0 "x" State.empty).1 (by decide)
  · exact (variable_spec 0 "x"
      (State.frame "x" (Value.vInt 7) Ty.integer State.empty)).2
      (Value.vInt 7) Ty.integer (by decide)

/-- C9: extending an environment with `(n, v, t)` and looking `n` up
returns `(v, t)` (nearest frame wins); the extension is a new head frame
pointing at the untouched receiver, so lookups of other names pass
through unchanged; lookup on the empty environment returns not-found. -/
theorem state_spec (env : State) (n m : String) (v : Value) (t : Ty) :
    ((env.set_value n v t).get_value n = Option.some (v, t))
  ∧ (env.set_value n v t = State.frame n v t env)
  ∧ (State.empty.get_value m = Option.none)
  ∧ (m ≠ n → (env.set_value n v t).get_value m = env.get_value m) := by
  refine ⟨?_, rfl, rfl, ?_⟩
  · simp [State.set_value, State.get_value]
  · intro hmn
    simp [State.set_value, State.get_value, Ne.symm hmn]

/-- Witness for C9 at concrete inputs: the set/get round trip on a
shadowed name, and pass-through lookup of a different name. -/
theorem state_spec_witness :
    ((State.frame "a" (Value.vInt 1) Ty.integer State.empty).set_value "a"
        (Value.vInt 2) Ty.integer).get_value "a"
      = Option.some (Value.vInt 2, Ty.integer)
  ∧ (State.empty.set_value "a" (Value.vInt 1) Ty.integer).get_value "b"
      = State.empty.get_value "b" := by
  constructor
  · exact (state_spec (State.frame "a" (Value.vInt 1) Ty.integer State.empty)
      "a" "b" (Value.vInt 2) Ty.integer).1
  · exact (state_spec State.empty "a" "b" (Value.vInt 1) Ty.integer).2.2.2
      (by decide)

/-- C10: a binding whose stored pair is the Unit value `(None, Unit)` is
found by `Variable` lookup and returned as `(None, Unit, env)` — it is
never confused with the not-found case, because lookup distinguishes
"no binding" from "a binding holding `None`". -/
theorem unit_binding_spec (fuel : Nat) (x : String) (s : State)
    (h : s.get_value x = Option.some (Value.vNone, Ty.unit)) :
    evaluate (fuel+1) (Expr.variable x) s
        = Outcome.ok Value.vNone Ty.unit s
  ∧ evaluate (fuel+1) (Expr.variable x) s
        ≠ Outcome.err Err.interpSyntaxError := by
  have he : evaluate (fuel+1) (Expr.variable x) s
      = Outcome.ok Value.vNone Ty.unit s := by
    unfold evaluate
    rw [run_var_eq, h]
  refine ⟨he, ?_⟩
  rw [he]
  simp

/-- Witness for C10 at a concrete input: a Unit-typed binding reads back
successfully. -/
theorem unit_binding_spec_witness :
    evaluate 1 (Expr.variable "u")
        (State.frame "u" Value.vNone Ty.unit State.empty)
      = Outcome.ok Value.vNone Ty.unit
          (State.frame "u" Value.vNone Ty.unit State.empty) :=
  (unit_binding_spec 0 "u"
    (State.frame "u" Value.vNone Ty.unit State.empty) (by decide)).1

/-- C7: comparing two operands that both evaluate to type `Unit` yields
a fixed `Boolean` constant independent of the values: `Lt` and `Gt` give
`false`, `Lte` and `Gte` give `true`, `Eq` gives `true`, `Ne` gives
`false`. -/
theorem unit_comparison_spec (fuel : Nat) (l r : Expr) (s s1 s2 : State)
    (v1 v2 : Value)
    (hl : evaluate fuel l s = Outcome.ok v1 Ty.unit s1)
    (hr : evaluate fuel r s1 = Outcome.ok v2 Ty.unit s2) :
    evaluate (fuel+1) (Expr.lt l r) s
        = Outcome.ok (Value.vBool false) Ty.boolean s2
  ∧ evaluate (fuel+1) (Expr.lte l r) s
        = Outcome.ok (Value.vBool true) Ty.boolean s2
  ∧ evaluate (fuel+1) (Expr.gt l r) s
        = Outcome.ok (Value.vBool false) Ty.boolean s2
  ∧ evaluate (fuel+1) (Expr.gte l r) s
        = Outcome.ok (Value.vBool true) Ty.boolean s2
  ∧ evaluate (fuel+1) (Expr.eq l r) s
        = Outcome.ok (Value.vBool true) Ty.boolean s2
  ∧ evaluate (fuel+1) (Expr.ne l r) s
        = Outcome.ok (Value.vBool false) Ty.boolean s2 := by
  unfold evaluate at hl hr
  unfold evaluate
  refine ⟨?_, ?_, ?_, ?_, ?_, ?_⟩
  · rw [run_lt_eq, binResult_ok_unfold ltK fuel l r s v1 Ty.unit s1 hl, hr]
    simp [ltK]
  · rw [run_lte_eq, binResult_ok_unfold lteK fuel l r s v1 Ty.unit s1 hl, hr]
    simp [lteK]
  · rw [run_gt_eq, binResult_ok_unfold gtK fuel l r s v1 Ty.unit s1 hl, hr]
    simp [gtK]
  · rw [run_gte_eq, binResult_ok_unfold gteK fuel l r s v1 Ty.unit s1 hl, hr]
    simp [gteK]
  · rw [run_eq_eq, binResult_ok_unfold eqK fuel l r s v1 Ty.unit s1 hl, hr]
    simp [eqK]
  · rw [run_ne_eq, binResult_ok_unfold neK fuel l r s v1 Ty.unit s1 hl, hr]
    simp [neK]

/-- Witness for C7 at concrete inputs: `Eq(Ren(), Ren())` is `true` and
`Lt(Ren(), Ren())` is `false`. -/
theorem unit_comparison_spec_witness :
    evaluate 2 (Expr.eq Expr.ren Expr.ren) State.empty
        = Outcome.ok (Value.vBool true) Ty.boolean State.empty
  ∧ evaluate 2 (Expr.lt Expr.ren Expr.ren) State.empty
        = Outcome.ok (Value.vBool false) Ty.boolean State.empty := by
  constructor
  · exact (unit_comparison_spec 1 Expr.ren Expr.ren State.empty State.empty
      State.empty Value.vNone Value.vNone (by decide) (by decide)).2.2.2.2.1
  · exact (unit_comparison_spec 1 Expr.ren Expr.ren State.empty State.empty
      State.empty Value.vNone Value.vNone (by decide) (by decide)).1

/-- C1: `Assign(variable, valueExpr)` evaluates the value expression
first, yielding `(v, t, env1)`; a prior binding for the variable in
`env1` of a different type raises the type-class error; no prior binding
means the assignment succeeds regardless of `t`; a prior binding of the
same type also succeeds; the successful result is
`(v, t, env1 extended with (variable, v, t))` and a subsequent read of
the variable returns the newly assigned value. -/
theorem assign_spec (fuel : Nat) (x : String) (ve : Expr) (s s1 : State)
    (v : Value) (t : Ty)
    (h : evaluate fuel ve s = Outcome.ok v t s1) :
    (∀ v0 t0, s1.get_value x = Option.some (v0, t0) → t0 ≠ t →
        evaluate (fuel+1) (Expr.assign x ve) s = Outcome.err Err.interpTypeError)
  ∧ (s1.get_value x = Option.none →
        evaluate (fuel+1) (Expr.assign x ve) s
          = Outcome.ok v t (s1.set_value x v t))
  ∧ (∀ v0, s1.get_value x = Option.some (v0, t) →
        evaluate (fuel+1) (Expr.assign x ve) s
          = Outcome.ok v t (s1.set_value x v t))
  ∧ (∀ m, evaluate (m+1) (Expr.variable x) (s1.set_value x v t)
        = Outcome.ok v t (s1.set_value x v t)) := by
  unfold evaluate at h
  refine ⟨?_, ?_, ?_, ?_⟩
  · intro v0 t0 hg hne
    unfold evaluate
    rw [run_assign_found fuel x ve s v t s1 v0 t0 h hg, if_pos (Ne.symm hne)]
  · intro hg
    unfold evaluate
    rw [run_assign_new fuel x ve s v t s1 h hg]
  · intro v0 hg
    unfold evaluate
    rw [run_assign_found fuel x ve s v t s1 v0 t h hg, if_neg (by simp)]
  · intro m
    unfold evaluate
    rw [run_var_eq]
    simp [State.set_value, State.get_value]

/-- Witness for C1 at concrete inputs: re-binding `x` at a different
type fails, first-time binding succeeds, same-type re-binding succeeds,
and the re-bound value reads back. -/
theorem assign_spec_witness :
    evaluate 2 (Expr.assign "x" (Expr.intLiteral 5))
        (State.frame "x" (Value.vFloat 1) Ty.floatingPoint State.empty)
      = Outcome.err Err.interpTypeError
  ∧ evaluate 2 (Expr.assign "x" (Expr.intLiteral 5)) State.empty
      = Outcome.ok (Value.vInt 5) Ty.integer
          (State.empty.set_value "x" (Value.vInt 5) Ty.integer)
  ∧ evaluate 2 (Expr.assign "x" (Expr.intLiteral 5))
        (State.frame "x" (Value.vInt 1) Ty.integer State.empty)
      = Outcome.ok (Value.vInt 5) Ty.integer
          ((State.frame "x" (Value.vInt 1) Ty.integer State.empty).set_value
            "x" (Value.vInt 5) Ty.integer)
  ∧ evaluate 1 (Expr.variable "x")
        (State.empty.set_value "x" (Value.vInt 5) Ty.integer)
      = Outcome.ok (Value.vInt 5) Ty.integer
          (State.empty.set_value "x" (Value.vInt 5) Ty.integer) := by
  refine ⟨?_, ?_, ?_, ?_⟩
  · exact (assign_spec 1 "x" (Expr.intLiteral 5)
      (State.frame "x" (Value.vFloat 1) Ty.floatingPoint State.empty)
      (State.frame "x" (Value.vFloat 1) Ty.floatingPoint State.empty)
      (Value.vInt 5) Ty.integer (by decide)).1
      (Value.vFloat 1) Ty.floatingPoint (by decide) (by decide)
  · exact (assign_spec 1 "x" (Expr.intLiteral 5) State.empty State.empty
      (Value.vInt 5) Ty.integer (by decide)).2.1 (by decide)
  · exact (assign_spec 1 "x" (Expr.intLiteral 5)
      (State.frame "x" (Value.vInt 1) Ty.integer State.empty)
      (State.frame "x" (Value.vInt 1) Ty.integer State.empty)
      (Value.vInt 5) Ty.integer (by decide)).2.2.1 (Value.vInt 1) (by decide)
  · exact (assign_spec 1 "x" (Expr.intLiteral 5) State.empty State.empty
      (Value.vInt 5) Ty.integer (by decide)).2.2.2 0

/-- C5: `If` requires the condition's type to be `Boolean` (else the
type-class error); a true condition value makes the result exactly the
true branch's evaluation against the condition's environment, a false
condition the false branch's; the untaken branch never influences the
result. -/
theorem if_spec (fuel : Nat) (c tb fb : Expr) (s s1 : State) (v : Value)
    (t : Ty) (h : evaluate fuel c s = Outcome.ok v t s1) :
    (t ≠ Ty.boolean →
        evaluate (fuel+1) (Expr.ifE c tb fb) s = Outcome.err Err.interpTypeError)
  ∧ (v = Value.vBool true → t = Ty.boolean →
        evaluate (fuel+1) (Expr.ifE c tb fb) s = evaluate fuel tb s1)
  ∧ (v = Value.vBool false → t = Ty.boolean →
        evaluate (fuel+1) (Expr.ifE c tb fb) s = evaluate fuel fb s1)
  ∧ (v = Value.vBool true → t = Ty.boolean → ∀ fb2,
        evaluate (fuel+1) (Expr.ifE c tb fb) s
          = evaluate (fuel+1) (Expr.ifE c tb fb2) s)
  ∧ (v = Value.vBool false → t = Ty.boolean → ∀ tb2,
        evaluate (fuel+1) (Expr.ifE c tb fb) s
          = evaluate (fuel+1) (Expr.ifE c tb2 fb) s) := by
  unfold evaluate at h
  refine ⟨?_, ?_, ?_, ?_, ?_⟩
  · intro ht
    unfold evaluate
    rw [run_if_ok fuel c tb fb s v t s1 h, if_neg ht]
  · intro hv ht
    subst hv
    subst ht
    unfold evaluate
    rw [run_if_ok fuel c tb fb s (Value.vBool true) Ty.boolean s1 h,
      if_pos rfl, if_pos (by simp [truthy])]
  · intro hv ht
    subst hv
    subst ht
    unfold evaluate
    rw [run_if_ok fuel c tb fb s (Value.vBool false) Ty.boolean s1 h,
      if_pos rfl, if_neg (by simp [truthy])]
  · intro hv ht fb2
    subst hv
    subst ht
    unfold evaluate
    rw [run_if_ok fuel c tb fb s (Value.vBool true) Ty.boolean s1 h,
      run_if_ok fuel c tb fb2 s (Value.vBool true) Ty.boolean s1 h,
      if_pos rfl, if_pos rfl, if_pos (by simp [truthy]), if_pos (by simp [truthy])]
  · intro hv ht tb2
    subst hv
    subst ht
    unfold evaluate
    rw [run_if_ok fuel c tb fb s (Value.vBool false) Ty.boolean s1 h,
      run_if_ok fuel c tb2 fb s (Value.vBool false) Ty.boolean s1 h,
      if_pos rfl, if_pos rfl, if_neg (by simp [truthy]), if_neg (by simp [truthy])]

/-- Witness for C5 at concrete inputs: a non-boolean condition fails, a
true condition takes only the true branch, a false condition takes only
the false branch (the untaken branch here being an unbound-variable read
that would fail if evaluated). -/
theorem if_spec_witness :
    evaluate 2 (Expr.ifE (Expr.intLiteral 1) (Expr.intLiteral 2)
        (Expr.intLiteral 3)) State.empty = Outcome.err Err.interpTypeError
  ∧ evaluate 2 (Expr.ifE (Expr.booleanLiteral true) (Expr.intLiteral 2)
        (Expr.variable "boom")) State.empty
      = evaluate 1 (Expr.intLiteral 2) State.empty
  ∧ evaluate 2 (Expr.ifE (Expr.booleanLiteral false) (Expr.variable "boom")
        (Expr.intLiteral 3)) State.empty
      = evaluate 1 (Expr.intLiteral 3) State.empty
  ∧ evaluate 2 (Expr.ifE (Expr.booleanLiteral true) (Expr.intLiteral 2)
        (Expr.variable "boom")) State.empty
      = evaluate 2 (Expr.ifE (Expr.booleanLiteral true) (Expr.intLiteral 2)
          (Expr.intLiteral 9)) State.empty := by
  refine ⟨?_, ?_, ?_, ?_⟩
  · exact (if_spec 1 (Expr.intLiteral 1) (Expr.intLiteral 2) (Expr.intLiteral 3)
      State.empty State.empty (Value.vInt 1) Ty.integer (by decide)).1 (by decide)
  · exact (if_spec 1 (Expr.booleanLiteral true) (Expr.intLiteral 2)
      (Expr.variable "boom") State.empty State.empty (Value.vBool true)
      Ty.boolean (by decide)).2.1 rfl rfl
  · exact (if_spec 1 (Expr.booleanLiteral false) (Expr.variable "boom")
      (Expr.intLiteral 3) State.empty State.empty (Value.vBool false)
      Ty.boolean (by decide)).2.2.1 rfl rfl
  · exact (if_spec 1 (Expr.booleanLiteral true) (Expr.intLiteral 2)
      (Expr.variable "boom") State.empty State.empty (Value.vBool true)
      Ty.boolean (by decide)).2.2.2.1 rfl rfl (Expr.intLiteral 9)

/-- C6: an empty `Sequence`/`Program` evaluates as the no-op node, i.e.
to `(None, Unit, env)`; a one-element list returns exactly that
element's result; a longer list evaluates its head against the incoming
environment and recurses on the tail against the head's environment, so
the overall result is the last expression's. -/
theorem sequence_spec (fuel : Nat) (s : State) :
    (evaluate (fuel+1) (Expr.sequence []) s = evaluate fuel Expr.ren s)
  ∧ (evaluate (fuel+1+1) (Expr.sequence []) s = Outcome.ok Value.vNone Ty.unit s)
  ∧ (∀ e, evaluate (fuel+1) (Expr.sequence [e]) s = evaluate fuel e s)
  ∧ (∀ e es v t s1, es ≠ [] → evaluate fuel e s = Outcome.ok v t s1 →
        evaluate (fuel+1) (Expr.sequence (e :: es)) s
          = evaluate fuel (Expr.sequence es) s1)
  ∧ (evaluate (fuel+1) (Expr.program []) s = evaluate fuel Expr.ren s)
  ∧ (evaluate (fuel+1+1) (Expr.program []) s = Outcome.ok Value.vNone Ty.unit s)
  ∧ (∀ e, evaluate (fuel+1) (Expr.program [e]) s = evaluate fuel e s)
  ∧ (∀ e es v t s1, es ≠ [] → evaluate fuel e s = Outcome.ok v t s1 →
        evaluate (fuel+1) (Expr.program (e :: es)) s
          = evaluate fuel (Expr.sequence es) s1) := by
  refine ⟨?_, ?_, ?_, ?_, ?_, ?_, ?_, ?_⟩
  · unfold evaluate
    rw [run_seq_nil_eq]
  · unfold evaluate
    rw [run_seq_nil_eq, run_ren_eq]
  · intro e
    unfold evaluate
    rcases he : evalFuel fuel (Job.run e s) with ⟨v1, t1, s1⟩ | e1 | _ | _
    · simp [run_seq_cons_ok fuel e [] s v1 t1 s1 he, he]
    · rw [run_seq_cons_eq, he]
    · rw [run_seq_cons_eq, he]
    · rw [run_seq_cons_eq, he]
  · intro e es v t s1 hne he
    unfold evaluate at he
    unfold evaluate
    cases es with
    | nil => exact absurd rfl hne
    | cons a as => rw [run_seq_cons_ok fuel e (a :: as) s v t s1 he]
  · unfold evaluate
    rw [run_prog_nil_eq]
  · unfold evaluate
    rw [run_prog_nil_eq, run_ren_eq]
  · intro e
    unfold evaluate
    rcases he : evalFuel fuel (Job.run e s) with ⟨v1, t1, s1⟩ | e1 | _ | _
    · simp [run_prog_cons_ok fuel e [] s v1 t1 s1 he, he]
    · rw [run_prog_cons_eq, he]
    · rw [run_prog_cons_eq, he]
    · rw [run_prog_cons_eq, he]
  · intro e es v t s1 hne he
    unfold evaluate at he
    unfold evaluate
    cases es with
    | nil => exact absurd rfl hne
    | cons a as => rw [run_prog_cons_ok fuel e (a :: as) s v t s1 he]

/-- Witness for C6 at concrete inputs: the empty sequence is the no-op
result, a singleton returns its element's result, and a two-element
sequence returns the second element's result. -/
theorem sequence_spec_witness :
    evaluate 3 (Expr.sequence []) State.empty
        = Outcome.ok Value.vNone Ty.unit State.empty
  ∧ evaluate 2 (Expr.sequence [Expr.intLiteral 4]) State.empty
        = evaluate 1 (Expr.intLiteral 4) State.empty
  ∧ evaluate 2 (Expr.sequence [Expr.intLiteral 4, Expr.intLiteral 9])
        State.empty
        = evaluate 1 (Expr.sequence [Expr.intLiteral 9]) State.empty := by
  refine ⟨?_, ?_, ?_⟩
  · exact (sequence_spec 1 State.empty).2.1
  · exact (sequence_spec 1 State.empty).2.2.1 (Expr.intLiteral 4)
  · exact (sequence_spec 1 State.empty).2.2.2.1 (Expr.intLiteral 4)
      [Expr.intLiteral 9] (Value.vInt 4) Ty.integer State.empty
      (by simp) (by decide)

/-- C2: for `Divide` on operands of one shared type, a right operand
equal to zero raises the arithmetic-class error before any
type-specific division logic, regardless of the operand type; otherwise
two `Integer` operands floor-divide, two `FloatingPoint` operands
true-divide, and any other operand type raises the type-class error. -/
theorem divide_spec (fuel : Nat) (l r : Expr) (s s1 s2 : State)
    (v1 v2 : Value) (t : Ty)
    (hl : evaluate fuel l s = Outcome.ok v1 t s1)
    (hr : evaluate fuel r s1 = Outcome.ok v2 t s2) :
    (pyEq v2 (Value.vInt 0) = true →
        evaluate (fuel+1) (Expr.divide l r) s = Outcome.err Err.interpMathError)
  ∧ (∀ a b : Int, v1 = Value.vInt a → v2 = Value.vInt b → b ≠ 0 →
        t = Ty.integer →
        evaluate (fuel+1) (Expr.divide l r) s
          = Outcome.ok (Value.vInt (Int.fdiv a b)) Ty.integer s2)
  ∧ (∀ a b : Rat, v1 = Value.vFloat a → v2 = Value.vFloat b → b ≠ 0 →
        t = Ty.floatingPoint →
        evaluate (fuel+1) (Expr.divide l r) s
          = Outcome.ok (Value.vFloat (a / b)) Ty.floatingPoint s2)
  ∧ (t ≠ Ty.integer → t ≠ Ty.floatingPoint → pyEq v2 (Value.vInt 0) = false →
        evaluate (fuel+1) (Expr.divide l r) s
          = Outcome.err Err.interpTypeError) := by
  unfold evaluate at hl hr
  refine ⟨?_, ?_, ?_, ?_⟩
  · intro hz
    unfold evaluate
    rw [run_div_eq, binResult_ok_unfold divK fuel l r s v1 t s1 hl, hr]
    simp [divK, hz]
  · intro a b ha hb hb0 ht
    subst ha
    subst hb
    subst ht
    unfold evaluate
    rw [run_div_eq, binResult_ok_unfold divK fuel l r s (Value.vInt a)
      Ty.integer s1 hl, hr]
    simp [divK, pyEq, toNum, pyFloorDiv, hb0]
  · intro a b ha hb hb0 ht
    subst ha
    subst hb
    subst ht
    unfold evaluate
    rw [run_div_eq, binResult_ok_unfold divK fuel l r s (Value.vFloat a)
      Ty.floatingPoint s1 hl, hr]
    simp [divK, pyEq, toNum, pyTrueDiv, hb0]
  · intro h1 h2 hz
    unfold evaluate
    rw [run_div_eq, binResult_ok_unfold divK fuel l r s v1 t s1 hl, hr]
    cases t <;> simp_all [divK]

/-- Witness for C2 at concrete inputs: `7 // 0` raises the arithmetic
error, `7 // 2` is `3`, `7.0 / 2.0` is `3.5`, and dividing two
(non-zero) booleans raises the type-class error. -/
theorem divide_spec_witness :
    evaluate 2 (Expr.divide (Expr.intLiteral 7) (Expr.intLiteral 0)) State.empty
        = Outcome.err Err.interpMathError
  ∧ evaluate 2 (Expr.divide (Expr.intLiteral 7) (Expr.intLiteral 2)) State.empty
        = Outcome.ok (Value.vInt 3) Ty.integer State.empty
  ∧ evaluate 2 (Expr.divide (Expr.floatingPointLiteral 7)
        (Expr.floatingPointLiteral 2)) State.empty
        = Outcome.ok (Value.vFloat (3.5 : Rat)) Ty.floatingPoint State.empty
  ∧ evaluate 2 (Expr.divide (Expr.booleanLiteral true)
        (Expr.booleanLiteral true)) State.empty
        = Outcome.err Err.interpTypeError := by
  refine ⟨?_, ?_, ?_, ?_⟩
  · exact (divide_spec 1 (Expr.intLiteral 7) (Expr.intLiteral 0) State.empty
      State.empty State.empty (Value.vInt 7) (Value.vInt 0) Ty.integer
      (by decide) (by decide)).1 (by decide)
  · have h2 := (divide_spec 1 (Expr.intLiteral 7) (Expr.intLiteral 2)
      State.empty State.empty State.empty (Value.vInt 7) (Value.vInt 2)
      Ty.integer (by decide) (by decide)).2.1 7 2 rfl rfl (by decide) rfl
    rw [show Int.fdiv 7 2 = (3 : Int) from by decide] at h2
    exact h2
  · have h3 := (divide_spec 1 (Expr.floatingPointLiteral 7)
      (Expr.floatingPointLiteral 2) State.empty State.empty State.empty
      (Value.vFloat 7) (Value.vFloat 2) Ty.floatingPoint
      (by decide) (by decide)).2.2.1 7 2 rfl rfl (by norm_num) rfl
    rw [show (7 : Rat) / 2 = (3.5 : Rat) from by norm_num] at h3
    exact h3
  · exact (divide_spec 1 (Expr.booleanLiteral true) (Expr.booleanLiteral true)
      State.empty State.empty State.empty (Value.vBool true) (Value.vBool true)
      Ty.boolean (by decide) (by decide)).2.2.2
      (by decide) (by decide) (by decide)

/-- C3: `And`/`Or` always evaluate both operands — the right operand is
evaluated against the environment produced by the left, and its
environment effects appear in the returned environment even when the
left operand's value alone determines the boolean result; operands must
both be `Boolean` (mismatched or non-boolean types raise the type-class
error). -/
theorem and_or_spec (fuel : Nat) (l r : Expr) (s s1 s2 : State)
    (v1 : Value) (t1 : Ty) (v2 : Value) (t2 : Ty)
    (hl : evaluate fuel l s = Outcome.ok v1 t1 s1)
    (hr : evaluate fuel r s1 = Outcome.ok v2 t2 s2) :
    (∀ a c : Bool, v1 = Value.vBool a → v2 = Value.vBool c →
        t1 = Ty.boolean → t2 = Ty.boolean →
        evaluate (fuel+1) (Expr.and l r) s
            = Outcome.ok (Value.vBool (a && c)) Ty.boolean s2
        ∧ evaluate (fuel+1) (Expr.or l r) s
            = Outcome.ok (Value.vBool (a || c)) Ty.boolean s2)
  ∧ (t1 ≠ t2 →
        evaluate (fuel+1) (Expr.and l r) s = Outcome.err Err.interpTypeError
        ∧ evaluate (fuel+1) (Expr.or l r) s = Outcome.err Err.interpTypeError)
  ∧ (t1 = t2 → t1 ≠ Ty.boolean →
        evaluate (fuel+1) (Expr.and l r) s = Outcome.err Err.interpTypeError
        ∧ evaluate (fuel+1) (Expr.or l r) s = Outcome.err Err.interpTypeError) := by
  unfold evaluate at hl hr
  refine ⟨?_, ?_, ?_⟩
  · intro a c ha hc ht1 ht2
    subst ha
    subst hc
    subst ht1
    subst ht2
    constructor
    · unfold evaluate
      rw [run_and_eq, binResult_ok_unfold andK fuel l r s (Value.vBool a)
        Ty.boolean s1 hl, hr]
      simp [andK, pyAnd_bool]
    · unfold evaluate
      rw [run_or_eq, binResult_ok_unfold orK fuel l r s (Value.vBool a)
        Ty.boolean s1 hl, hr]
      simp [orK, pyOr_bool]
  · intro hne
    constructor
    · unfold evaluate
      rw [run_and_eq, binResult_ok_unfold andK fuel l r s v1 t1 s1 hl, hr]
      simp [andK, hne]
    · unfold evaluate
      rw [run_or_eq, binResult_ok_unfold orK fuel l r s v1 t1 s1 hl, hr]
      simp [orK, hne]
  · intro heq hnb
    subst heq
    constructor
    · unfold evaluate
      rw [run_and_eq, binResult_ok_unfold andK fuel l r s v1 t1 s1 hl, hr]
      cases t1 <;> simp_all [andK]
    · unfold evaluate
      rw [run_or_eq, binResult_ok_unfold orK fuel l r s v1 t1 s1 hl, hr]
      cases t1 <;> simp_all [orK]

/-- Witness for C3 at concrete inputs: with a false left operand, the
right operand (which performs an assignment) is still evaluated and its
binding appears in the result environment; similarly for `Or` with a
true left operand; mismatched and non-boolean operand types fail. -/
theorem and_or_spec_witness :
    evaluate 4 (Expr.and (Expr.booleanLiteral false)
        (Expr.eq (Expr.assign "y" (Expr.intLiteral 1)) (Expr.intLiteral 1)))
        State.empty
      = Outcome.ok (Value.vBool false) Ty.boolean
          (State.frame "y" (Value.vInt 1) Ty.integer State.empty)
  ∧ evaluate 4 (Expr.or (Expr.booleanLiteral true)
        (Expr.eq (Expr.assign "y" (Expr.intLiteral 1)) (Expr.intLiteral 1)))
        State.empty
      = Outcome.ok (Value.vBool true) Ty.boolean
          (State.frame "y" (Value.vInt 1) Ty.integer State.empty)
  ∧ evaluate 2 (Expr.and (Expr.booleanLiteral true) (Expr.intLiteral 1))
        State.empty = Outcome.err Err.interpTypeError
  ∧ evaluate 2 (Expr.or (Expr.intLiteral 1) (Expr.intLiteral 2))
        State.empty = Outcome.err Err.interpTypeError := by
  refine ⟨?_, ?_, ?_, ?_⟩
  · exact ((and_or_spec 3 (Expr.booleanLiteral false)
      (Expr.eq (Expr.assign "y" (Expr.intLiteral 1)) (Expr.intLiteral 1))
      State.empty State.empty
      (State.frame "y" (Value.vInt 1) Ty.integer State.empty)
      (Value.vBool false) Ty.boolean (Value.vBool true) Ty.boolean
      (by decide) (by decide)).1 false true rfl rfl rfl rfl).1
  · exact ((and_or_spec 3 (Expr.booleanLiteral true)
      (Expr.eq (Expr.assign "y" (Expr.intLiteral 1)) (Expr.intLiteral 1))
      State.empty State.empty
      (State.frame "y" (Value.vInt 1) Ty.integer State.empty)
      (Value.vBool true) Ty.boolean (Value.vBool true) Ty.boolean
      (by decide) (by decide)).1 true true rfl rfl rfl rfl).2
  · exact ((and_or_spec 1 (Expr.booleanLiteral true) (Expr.intLiteral 1)
      State.empty State.empty State.empty (Value.vBool true) Ty.boolean
      (Value.vInt 1) Ty.integer (by decide) (by decide)).2.1 (by decide)).1
  · exact ((and_or_spec 1 (Expr.intLiteral 1) (Expr.intLiteral 2)
      State.empty State.empty State.empty (Value.vInt 1) Ty.integer
      (Value.vInt 2) Ty.integer (by decide) (by decide)).2.2 rfl (by decide)).2

/-- C4: a terminating `While` always results in the falsy terminating
condition `(false, Boolean, env)` (never the body's last value, shown
here from well-tagged environments); a condition that is false on first
evaluation means the body is never evaluated (the result does not
depend on the body at all); the condition must be `Boolean` at the
first check and at every re-check after an iteration, else the
type-class error is raised. -/
theorem while_spec (fuel : Nat) (c b : Expr) (s : State) :
    (∀ v t s', wts s = true →
        evaluate fuel (Expr.whileE c b) s = Outcome.ok v t s' →
        v = Value.vBool false ∧ t = Ty.boolean)
  ∧ (∀ s1, evaluate fuel c s = Outcome.ok (Value.vBool false) Ty.boolean s1 →
        evaluate (fuel+1) (Expr.whileE c b) s
          = Outcome.ok (Value.vBool false) Ty.boolean s1)
  ∧ (∀ s1 b2, evaluate fuel c s = Outcome.ok (Value.vBool false) Ty.boolean s1 →
        evaluate (fuel+1) (Expr.whileE c b) s
          = evaluate (fuel+1) (Expr.whileE c b2) s)
  ∧ (∀ v t s1, evaluate fuel c s = Outcome.ok v t s1 → t ≠ Ty.boolean →
        evaluate (fuel+1) (Expr.whileE c b) s = Outcome.err Err.interpTypeError)
  ∧ (∀ v s0 vb tb s2 v2 t2 s3, truthy v = true →
        evaluate fuel b s0 = Outcome.ok vb tb s2 →
        evaluate fuel c s2 = Outcome.ok v2 t2 s3 → t2 ≠ Ty.boolean →
        whileLoop (fuel+1) c b v s0 = Outcome.err Err.interpTypeError) := by
  refine ⟨?_, ?_, ?_, ?_, ?_⟩
  · intro v t s' hws h
    cases fuel with
    | zero =>
      unfold evaluate at h
      rw [run_zero_eq] at h
      exact Outcome.noConfusion h
    | succ m =>
      unfold evaluate at h
      rcases hc : evalFuel m (Job.run c s) with ⟨vc, tc, s1⟩ | e1 | _ | _
      · obtain ⟨hwc, hs1⟩ := (evalFuel_wt m).1 c s vc tc s1 hws hc
        rw [run_while_ok m c b s vc tc s1 hc] at h
        by_cases ht : tc = Ty.boolean
        · rw [if_pos ht] at h
          subst ht
          obtain ⟨rfl, rfl, _⟩ := (evalFuel_wt m).2 c b vc s1 v t s' hs1 hwc h
          exact ⟨rfl, rfl⟩
        · rw [if_neg ht] at h
          exact Outcome.noConfusion h
      · rw [run_while_eq, hc] at h
        exact Outcome.noConfusion h
      · rw [run_while_eq, hc] at h
        exact Outcome.noConfusion h
      · rw [run_while_eq, hc] at h
        exact Outcome.noConfusion h
  · intro s1 hc
    unfold evaluate at hc ⊢
    rw [run_while_ok fuel c b s (Value.vBool false) Ty.boolean s1 hc,
      if_pos rfl, loop_exit_eq fuel c b (Value.vBool false) s1 rfl]
  · intro s1 b2 hc
    unfold evaluate at hc ⊢
    rw [run_while_ok fuel c b s (Value.vBool false) Ty.boolean s1 hc,
      if_pos rfl, loop_exit_eq fuel c b (Value.vBool false) s1 rfl,
      run_while_ok fuel c b2 s (Value.vBool false) Ty.boolean s1 hc,
      if_pos rfl, loop_exit_eq fuel c b2 (Value.vBool false) s1 rfl]
  · intro v t s1 hc ht
    unfold evaluate at hc ⊢
    rw [run_while_ok fuel c b s v t s1 hc, if_neg ht]
  · intro v s0 vb tb s2 v2 t2 s3 htr hb hc ht2
    unfold evaluate at hb hc
    unfold whileLoop
    rw [loop_step_body_ok fuel c b v s0 vb tb s2 htr hb, hc]
    cases t2 <;> first | exact absurd rfl ht2 | rfl

/-- Witness for C4 at concrete inputs: an immediately-false loop returns
`(false, Boolean, env)` without touching the body, the result does not
depend on the body, a non-boolean first condition fails, and a
non-boolean re-checked condition fails inside the loop. -/
theorem while_spec_witness :
    evaluate 2 (Expr.whileE (Expr.booleanLiteral false) (Expr.intLiteral 1))
        State.empty = Outcome.ok (Value.vBool false) Ty.boolean State.empty
  ∧ (Value.vBool false = Value.vBool false ∧ Ty.boolean = Ty.boolean)
  ∧ evaluate 2 (Expr.whileE (Expr.booleanLiteral false) (Expr.intLiteral 1))
        State.empty
      = evaluate 2 (Expr.whileE (Expr.booleanLiteral false) (Expr.intLiteral 99))
          State.empty
  ∧ evaluate 2 (Expr.whileE (Expr.intLiteral 1) (Expr.intLiteral 2)) State.empty
      = Outcome.err Err.interpTypeError
  ∧ whileLoop 2 (Expr.intLiteral 1) (Expr.intLiteral 5) (Value.vBool true)
        State.empty = Outcome.err Err.interpTypeError := by
  refine ⟨?_, ?_, ?_, ?_, ?_⟩
  · exact (while_spec 1 (Expr.booleanLiteral false) (Expr.intLiteral 1)
      State.empty).2.1 State.empty (by decide)
  · exact (while_spec 2 (Expr.booleanLiteral false) (Expr.intLiteral 1)
      State.empty).1 (Value.vBool false) Ty.boolean State.empty
      (by decide) (by decide)
  · exact (while_spec 1 (Expr.booleanLiteral false) (Expr.intLiteral 1)
      State.empty).2.2.1 State.empty (Expr.intLiteral 99) (by decide)
  · exact (while_spec 1 (Expr.intLiteral 1) (Expr.intLiteral 2)
      State.empty).2.2.2.1 (Value.vInt 1) Ty.integer State.empty
      (by decide) (by decide)
  · exact (while_spec 1 (Expr.intLiteral 1) (Expr.intLiteral 5)
      State.empty).2.2.2.2 (Value.vBool true) State.empty (Value.vInt 5)
      Ty.integer State.empty (Value.vInt 1) Ty.integer State.empty
      rfl (by decide) (by decide) (by decide)

end Stimpl
